import Mathlib

/-!
Verification development for the sovereign-vote submission service.

The service (src/worker.js and the unnamed near-duplicate variant
src/unnamed/part_000) accepts ballot submissions, validates them,
derives a deterministic dedupe fingerprint, stores accepted submissions
in a relational store and maintains incremental aggregate counters.

The embedding below models:
  * submission payloads as JSON values (`JVal`), with JavaScript
    truthiness and property access (missing property = `undefined`);
  * the external 256-bit digest primitive (`crypto.subtle.digest`
    with SHA-256) as an executable SHA-256 over `Nat` byte lists;
  * the D1 database as an explicit state (`DBState`) of three tables,
    with every prepared statement of the source translated to an
    explicit operation on that state;
  * the request handlers (`handleSubmit`, `handleResults`) of both
    transport variants as pure state-passing functions; the wall clock
    (`new Date().toISOString()`) is passed in as a `now : String`
    parameter, and the request body is an `Option JVal`
    (`none` = body that fails to parse as JSON).
-/

/-- A JavaScript/JSON value as seen by the handlers.  `undefined` models
`undefined` (the result of accessing a missing property); numbers are
modelled as exact rationals (the counters involved are small integers,
and the only inexact float step — percentage division — is noted where
it matters). -/
inductive JVal where
  | undefined : JVal
  | null : JVal
  | bool : Bool → JVal
  | num : ℚ → JVal
  | str : String → JVal
  | arr : List JVal → JVal
  | obj : List (String × JVal) → JVal

/-- JavaScript truthiness: `undefined`, `null`, `false`, `0`, `""` are
falsy; every object and array is truthy. -/
def truthy : JVal → Bool
  | .undefined => false
  | .null => false
  | .bool b => b
  | .num q => decide (q ≠ 0)
  | .str s => decide (s ≠ "")
  | .arr _ => true
  | .obj _ => true

/-- Whether `typeof v === "object"` holds in JavaScript: true for
objects, arrays and (a JS quirk) `null`. -/
def isObjType : JVal → Bool
  | .null => true
  | .arr _ => true
  | .obj _ => true
  | _ => false

/-- Property access `v.k` / `v?.k`.  On an object, the named field, or
`undefined` when absent (object literals in this development have
distinct keys, as parsed JSON objects do).  On every non-object the
result is `undefined`; in JavaScript access on `null`/`undefined`
throws, but every such access in the source is either optional-chained
or dominated by a validation/object check, so the distinction is never
observable in the modelled code. -/
def getField : JVal → String → JVal
  | .obj fs, k => ((fs.find? (fun kv => decide (kv.1 = k))).map (fun kv => kv.2)).getD .undefined
  | _, _ => .undefined

/-- JavaScript `a || b`. -/
def jsOr (a b : JVal) : JVal := if truthy a then a else b

mutual

/-- JavaScript string coercion as used by the template literal that
builds the dedupe-key preimage.  Non-integer number formatting and
exponent notation are not modelled exactly (no claim depends on them);
all claim-relevant inputs are strings. -/
def jsToString : JVal → String
  | .undefined => "undefined"
  | .null => "null"
  | .bool b => if b then "true" else "false"
  | .num q => if q.den = 1 then toString q.num else toString q
  | .str s => s
  | .arr l => jsArrJoin l
  | .obj _ => "[object Object]"

/-- JavaScript `Array.prototype.toString`: elements joined by commas. -/
def jsArrJoin : List JVal → String
  | [] => ""
  | [x] => jsToString x
  | x :: y :: xs => jsToString x ++ "," ++ jsArrJoin (y :: xs)

end

/-! ## SHA-256 (the external digest primitive)

`sha256` in both source variants UTF-8 encodes the input string, applies
SHA-256 via `crypto.subtle.digest`, and renders the digest as lowercase
hex.  We implement SHA-256 executably over `Nat`, with 32-bit words as
naturals reduced modulo `2 ^ 32`. -/

/-- UTF-8 encoding of a single character as a list of bytes. -/
def utf8Char (c : Char) : List Nat :=
  let n := c.toNat
  if n < 0x80 then [n]
  else if n < 0x800 then [0xC0 + n / 64, 0x80 + n % 64]
  else if n < 0x10000 then [0xE0 + n / 4096, 0x80 + n / 64 % 64, 0x80 + n % 64]
  else [0xF0 + n / 262144, 0x80 + n / 4096 % 64, 0x80 + n / 64 % 64, 0x80 + n % 64]

/-- UTF-8 encoding of a string as a list of bytes. -/
def utf8Bytes (s : String) : List Nat :=
  s.data.flatMap utf8Char

/-- Right rotation of a 32-bit word (a natural below `2 ^ 32`). -/
def rotr32 (n x : Nat) : Nat :=
  ((x >>> n) ||| (x <<< (32 - n))) % 4294967296

/-- The 64 SHA-256 round constants. -/
def shaK : List Nat :=
  [1116352408, 1899447441, 3049323471, 3921009573, 961987163, 1508970993,
   2453635748, 2870763221, 3624381080, 310598401, 607225278, 1426881987,
   1925078388, 2162078206, 2614888103, 3248222580, 3835390401, 4022224774,
   264347078, 604807628, 770255983, 1249150122, 1555081692, 1996064986,
   2554220882, 2821834349, 2952996808, 3210313671, 3336571891, 3584528711,
   113926993, 338241895, 666307205, 773529912, 1294757372, 1396182291,
   1695183700, 1986661051, 2177026350, 2456956037, 2730485921, 2820302411,
   3259730800, 3345764771, 3516065817, 3600352804, 4094571909, 275423344,
   430227734, 506948616, 659060556, 883997877, 958139571, 1322822218,
   1537002063, 1747873779, 1955562222, 2024104815, 2227730452, 2361852424,
   2428436474, 2756734187, 3204031479, 3329325298]

/-- The SHA-256 initial hash value. -/
def shaH0 : List Nat :=
  [1779033703, 3144134277, 1013904242, 2773480762,
   1359893119, 2600822924, 528734635, 1541459225]

/-- Split a list into chunks of `n` elements (`fuel` bounds the
recursion; callers pass the list length). -/
def chunksAux (n : Nat) : Nat → List Nat → List (List Nat)
  | _, [] => []
  | 0, _ => []
  | fuel + 1, l => l.take n :: chunksAux n fuel (l.drop n)

/-- Split a list into chunks of `n` elements. -/
def chunks (n : Nat) (l : List Nat) : List (List Nat) :=
  chunksAux n l.length l

/-- SHA-256 padding: append `0x80`, zero bytes, and the 64-bit
big-endian bit length, reaching a multiple of 64 bytes. -/
def shaPad (msg : List Nat) : List Nat :=
  let len := msg.length
  let z := (64 - (len + 9) % 64) % 64
  let bitLen := 8 * len
  msg ++ [0x80] ++ List.replicate z 0 ++
    ([56, 48, 40, 32, 24, 16, 8, 0].map (fun s => (bitLen >>> s) % 256))

/-- Pack four big-endian bytes into a 32-bit word. -/
def word32 : List Nat → Nat
  | [a, b, c, d] => a * 16777216 + b * 65536 + c * 256 + d
  | _ => 0

/-- Extend a 16-word block to the 64-word message schedule. -/
def shaExtend : Nat → Array Nat → Array Nat
  | 0, w => w
  | fuel + 1, w =>
    let i := w.size
    let w15 := w.getD (i - 15) 0
    let w2 := w.getD (i - 2) 0
    let s0 := (rotr32 7 w15) ^^^ (rotr32 18 w15) ^^^ (w15 >>> 3)
    let s1 := (rotr32 17 w2) ^^^ (rotr32 19 w2) ^^^ (w2 >>> 10)
    shaExtend fuel (w.push ((w.getD (i - 16) 0 + s0 + w.getD (i - 7) 0 + s1) % 4294967296))

/-- The eight working variables of the SHA-256 compression function. -/
structure ShaState where
  a : Nat
  b : Nat
  c : Nat
  d : Nat
  e : Nat
  f : Nat
  g : Nat
  h : Nat
deriving DecidableEq

/-- One SHA-256 compression round. -/
def shaRound (st : ShaState) (kw : Nat × Nat) : ShaState :=
  let s1 := (rotr32 6 st.e) ^^^ (rotr32 11 st.e) ^^^ (rotr32 25 st.e)
  let ch := (st.e &&& st.f) ^^^ ((4294967295 - st.e) &&& st.g)
  let temp1 := (st.h + s1 + ch + kw.1 + kw.2) % 4294967296
  let s0 := (rotr32 2 st.a) ^^^ (rotr32 13 st.a) ^^^ (rotr32 22 st.a)
  let maj := (st.a &&& st.b) ^^^ (st.a &&& st.c) ^^^ (st.b &&& st.c)
  let temp2 := (s0 + maj) % 4294967296
  { a := (temp1 + temp2) % 4294967296, b := st.a, c := st.b, d := st.c,
    e := (st.d + temp1) % 4294967296, f := st.e, g := st.f, h := st.g }

/-- Compress one 64-byte block into the running hash value. -/
def shaCompress (h : List Nat) (block : List Nat) : List Nat :=
  let w := shaExtend 48 (List.toArray ((chunks 4 block).map word32))
  let init : ShaState :=
    { a := h.getD 0 0, b := h.getD 1 0, c := h.getD 2 0, d := h.getD 3 0,
      e := h.getD 4 0, f := h.getD 5 0, g := h.getD 6 0, h := h.getD 7 0 }
  let st := (shaK.zip w.toList).foldl shaRound init
  [(h.getD 0 0 + st.a) % 4294967296, (h.getD 1 0 + st.b) % 4294967296,
   (h.getD 2 0 + st.c) % 4294967296, (h.getD 3 0 + st.d) % 4294967296,
   (h.getD 4 0 + st.e) % 4294967296, (h.getD 5 0 + st.f) % 4294967296,
   (h.getD 6 0 + st.g) % 4294967296, (h.getD 7 0 + st.h) % 4294967296]

/-- Lowercase hex digit for a value below 16 (codepoint arithmetic:
48 is the digit zero, 97 the letter a). -/
def hexDigit (n : Nat) : Char :=
  if n < 10 then Char.ofNat (48 + n) else Char.ofNat (87 + n)

/-- Render one byte as two lowercase hex digits
(`b.toString(16).padStart(2, "0")` in the source). -/
def hexByte (b : Nat) : List Char :=
  [hexDigit (b / 16 % 16), hexDigit (b % 16)]

/-- The digest words rendered as a 64-character lowercase hex string. -/
def hexOfWords (ws : List Nat) : String :=
  String.mk ((ws.flatMap (fun w => [w / 16777216 % 256, w / 65536 % 256, w / 256 % 256, w % 256])).flatMap hexByte)

/-- `sha256` from the source: UTF-8 encode, digest with SHA-256, render
as lowercase hex. -/
def sha256 (s : String) : String :=
  hexOfWords ((chunks 64 (shaPad (utf8Bytes s))).foldl shaCompress shaH0)

/-! ## The database state (the D1 tables created by `ensureSchema`) -/

/-- One row of the `submissions` table.  The source stores
`JSON.stringify(payload)` in the TEXT column `payload_json`; the
embedding stores the JSON value itself (serialization is invertible on
the values at hand).  The `region` TEXT column receives the bound
JavaScript value coerced to text (on every validated payload it is
already a non-empty string). -/
structure SubmissionRow where
  receipt_id : String
  dedupe_key : String
  created_utc : String
  region : String
  payload_json : JVal

/-- One row of the `region_counts` table. -/
structure RegionRow where
  region : String
  total : Nat
  approve_yes : Nat
deriving DecidableEq

/-- The three tables of the D1 database.  The INTEGER counter columns
only ever receive non-negative increments, so they are modelled as
`Nat`. -/
structure DBState where
  submissions : List SubmissionRow
  aggregates : List (String × Nat)
  region_counts : List RegionRow

/-- The empty store. -/
def emptyDB : DBState := { submissions := [], aggregates := [], region_counts := [] }

/-- `ensureSchema`: `CREATE TABLE IF NOT EXISTS ...` — the model always
carries all three tables, so this is the identity on the state. -/
def ensureSchema (db : DBState) : DBState := db

/-- `SELECT receipt_id FROM submissions WHERE dedupe_key = ? LIMIT 1`. -/
def lookupReceipt (db : DBState) (key : String) : Option String :=
  (db.submissions.find? (fun r => decide (r.dedupe_key = key))).map (fun r => r.receipt_id)

/-- `INSERT INTO submissions ... VALUES (?,?,?,?,?)` under the
`receipt_id TEXT PRIMARY KEY` and `dedupe_key TEXT UNIQUE` constraints:
the row is appended, unless a constraint is violated, in which case the
statement fails and the D1 call rejects with an error. -/
def insertSubmission (db : DBState) (row : SubmissionRow) : Except String DBState :=
  if db.submissions.any (fun r => decide (r.receipt_id = row.receipt_id)) then
    .error "UNIQUE constraint failed: submissions.receipt_id"
  else if db.submissions.any (fun r => decide (r.dedupe_key = row.dedupe_key)) then
    .error "UNIQUE constraint failed: submissions.dedupe_key"
  else
    .ok { db with submissions := db.submissions ++ [row] }

/-- The `DO UPDATE SET v = v + 1` arm of `inc`, on one row. -/
def bumpKV (key : String) (kv : String × Nat) : String × Nat :=
  if kv.1 = key then (kv.1, kv.2 + 1) else kv

/-- The association-list upsert behind `inc`: `INSERT INTO aggregates
(k, v) VALUES (?, 1) ON CONFLICT(k) DO UPDATE SET v = v + 1`. -/
def bumpList (l : List (String × Nat)) (key : String) : List (String × Nat) :=
  if l.any (fun kv => decide (kv.1 = key)) then l.map (bumpKV key)
  else l ++ [(key, 1)]

/-- `inc(DB, key)` from the source. -/
def incAgg (db : DBState) (key : String) : DBState :=
  { db with aggregates := bumpList db.aggregates key }

/-- The stored value of a named counter; 0 when the row is absent,
matching `agg.name || 0` on the read side. -/
def lookupCount (l : List (String × Nat)) (key : String) : Nat :=
  ((l.find? (fun kv => decide (kv.1 = key))).map (fun kv => kv.2)).getD 0

/-- The value of a named aggregate counter in the store. -/
def aggVal (db : DBState) (key : String) : Nat :=
  lookupCount db.aggregates key

/-- `!!p?.ballot_track_a?.approve_interim_masculine_regent`. -/
def approveOf (p : JVal) : Bool :=
  truthy (getField (getField p "ballot_track_a") "approve_interim_masculine_regent")

/-- `!!p?.ballot_track_a?.prefer_open_contest_in_approx_90_days`. -/
def preferOf (p : JVal) : Bool :=
  truthy (getField (getField p "ballot_track_a") "prefer_open_contest_in_approx_90_days")

/-- `p?.context?.region || "Unknown"`, coerced to the TEXT column. -/
def regionOf (p : JVal) : String :=
  jsToString (jsOr (getField (getField p "context") "region") (.str "Unknown"))

/-- `INSERT INTO region_counts (region, total, approve_yes) VALUES (?, 0, 0)
ON CONFLICT(region) DO NOTHING`. -/
def regionEnsure (db : DBState) (reg : String) : DBState :=
  if db.region_counts.any (fun r => decide (r.region = reg)) then db
  else { db with region_counts := db.region_counts ++ [{ region := reg, total := 0, approve_yes := 0 }] }

/-- The `total = total + 1, approve_yes = approve_yes + ?` update on
one matching row. -/
def bumpRow (reg : String) (approve : Bool) (r : RegionRow) : RegionRow :=
  if r.region = reg then
    { r with total := r.total + 1, approve_yes := r.approve_yes + (if approve then 1 else 0) }
  else r

/-- `UPDATE region_counts SET total = total + 1, approve_yes = approve_yes + ?
WHERE region = ?`. -/
def regionBump (db : DBState) (reg : String) (approve : Bool) : DBState :=
  { db with region_counts := db.region_counts.map (bumpRow reg approve) }

/-- `if (cond) await inc(DB, key)`. -/
def incIf (cond : Bool) (db : DBState) (key : String) : DBState :=
  if cond then incAgg db key else db

/-- `updateAggregates` of src/worker.js. -/
def updateAggregates (db : DBState) (p : JVal) : DBState :=
  let approve := approveOf p
  let prefer := preferOf p
  let both := approve && prefer
  let neither := !approve && !prefer
  let db1 := incAgg db "total_submissions_counted"
  let db2 := incIf approve db1 "approve_interim_yes"
  let db3 := incIf prefer db2 "prefer_open_contest_yes"
  let db4 := incIf both db3 "both_selected"
  let db5 := incIf neither db4 "neither_selected"
  regionBump (regionEnsure db5 (regionOf p)) (regionOf p) approve

/-- `updateAggregates` of src/unnamed/part_000: identical counters; the
region row is maintained by the single upsert `INSERT INTO region_counts
(region, total, approve_yes) VALUES (?,1,?) ON CONFLICT(region) DO
UPDATE SET total = total + 1, approve_yes = approve_yes + ?`. -/
def updateAggregatesU (db : DBState) (p : JVal) : DBState :=
  let approve := approveOf p
  let prefer := preferOf p
  let both := approve && prefer
  let neither := !approve && !prefer
  let db1 := incAgg db "total_submissions_counted"
  let db2 := incIf approve db1 "approve_interim_yes"
  let db3 := incIf prefer db2 "prefer_open_contest_yes"
  let db4 := incIf both db3 "both_selected"
  let db5 := incIf neither db4 "neither_selected"
  let reg := regionOf p
  if db5.region_counts.any (fun r => decide (r.region = reg)) then
    { db5 with region_counts := db5.region_counts.map (bumpRow reg approve) }
  else
    { db5 with region_counts := db5.region_counts ++
        [{ region := reg, total := 1, approve_yes := if approve then 1 else 0 }] }

/-! ## Validators -/

/-- `validatePayload` of src/worker.js.  A "missing" field in the
source is a falsy one (JavaScript truthiness). -/
def validatePayload (p : JVal) : List String :=
  if !(truthy p && isObjType p) then ["Payload must be JSON object"]
  else
    (if !truthy (getField p "schema_version") then ["Missing schema_version"] else []) ++
    (if !truthy (getField p "created_utc") then ["Missing created_utc"] else []) ++
    (if !truthy (getField p "voter_id") then ["Missing voter_id"] else []) ++
    (if !(truthy (getField p "context") && isObjType (getField p "context")) then
      ["Missing context object"] else []) ++
    (if !truthy (getField (getField p "context") "region") then ["Missing context.region"] else []) ++
    (if !truthy (getField (getField p "context") "country_or_territory") then
      ["Missing context.country_or_territory"] else [])

/-- `validate` of src/unnamed/part_000 (optional chaining everywhere,
no object-shape checks). -/
def validate (p : JVal) : List String :=
  (if !truthy (getField p "schema_version") then ["Missing schema_version"] else []) ++
  (if !truthy (getField p "created_utc") then ["Missing created_utc"] else []) ++
  (if !truthy (getField p "voter_id") then ["Missing voter_id"] else []) ++
  (if !truthy (getField (getField p "context") "region") then ["Missing context.region"] else []) ++
  (if !truthy (getField (getField p "context") "country_or_territory") then
    ["Missing context.country_or_territory"] else [])

/-- The well-formedness condition of the specification: the payload is
an object, `schema_version`, `created_utc`, `voter_id`,
`context.region`, `context.country_or_territory` are all present
(truthy, as the source reads "present"), and `context` is an object. -/
def wellFormed (p : JVal) : Bool :=
  truthy p && isObjType p &&
  truthy (getField p "schema_version") && truthy (getField p "created_utc") &&
  truthy (getField p "voter_id") &&
  truthy (getField p "context") && isObjType (getField p "context") &&
  truthy (getField (getField p "context") "region") &&
  truthy (getField (getField p "context") "country_or_territory")

/-! ## Fingerprint and receipt derivation -/

/-- The fixed voting-window identifier. -/
def windowId : String := "2026-01-03_to_2026-02-02"

/-- The dedupe fingerprint:
`sha256(voter_id + "|" + schema_version + "|" + windowId)`. -/
def dedupeKeyOf (voter schema window : String) : String :=
  sha256 (voter ++ "|" ++ schema ++ "|" ++ window)

/-- The fingerprint derived from a payload, exactly as in both submit
handlers (template-literal string coercion of the two fields). -/
def dedupeKeyFor (p : JVal) : String :=
  dedupeKeyOf (jsToString (getField p "voter_id")) (jsToString (getField p "schema_version")) windowId

/-- `receiptId = "r_" + sha256(dedupeKey).slice(0, 8)`. -/
def receiptIdOf (key : String) : String :=
  "r_" ++ (sha256 key).take 8

/-! ## Response bodies and the submit handlers -/

/-- `{ok: false, error: "BAD_JSON"}`. -/
def badJsonBody : JVal := .obj [("ok", .bool false), ("error", .str "BAD_JSON")]

/-- `{ok: false, error: "VALIDATION_FAILED", details: [...]}`. -/
def validationFailedBody (details : List String) : JVal :=
  .obj [("ok", .bool false), ("error", .str "VALIDATION_FAILED"), ("details", .arr (details.map .str))]

/-- The duplicate response body of both variants. -/
def duplicateBody (r : String) : JVal :=
  .obj [("ok", .bool true), ("receipt_id", .str r), ("counted", .bool false),
        ("message", .str "Duplicate detected (already counted).")]

/-- The counted response body of both variants. -/
def countedBody (r : String) : JVal :=
  .obj [("ok", .bool true), ("receipt_id", .str r), ("counted", .bool true),
        ("message", .str "Submission received and counted.")]

/-- The `fetch`-boundary catch clause of src/worker.js:
`{ok: false, error: "UNHANDLED", message: ...}`. -/
def unhandledBody (msg : String) : JVal :=
  .obj [("ok", .bool false), ("error", .str "UNHANDLED"), ("message", .str msg)]

/-- The insert-and-count tail of `handleSubmit` (src/worker.js lines
110–126): compute the receipt, insert the row, update the aggregates.
A storage constraint violation propagates to the `fetch` boundary,
where src/worker.js turns it into an UNHANDLED 500 response, the store
untouched by this request. -/
def insertAndCount (now : String) (payload : JVal) (db : DBState) (dedupeKey : String) :
    (Nat × JVal) × DBState :=
  let receiptId := receiptIdOf dedupeKey
  let row : SubmissionRow :=
    { receipt_id := receiptId, dedupe_key := dedupeKey, created_utc := now,
      region := regionOf payload, payload_json := payload }
  match insertSubmission db row with
  | .error e => ((500, unhandledBody e), db)
  | .ok db1 => ((200, countedBody receiptId), updateAggregates db1 payload)

/-- `handleSubmit` of src/worker.js, together with the `fetch`
boundary's catch clause for storage errors.  The request body arrives
as `none` when `request.json()` rejects.  The duplicate branch tests
the truthiness of `existing?.receipt_id`, exactly as the source. -/
def handleSubmit (now : String) (body : Option JVal) (db : DBState) : (Nat × JVal) × DBState :=
  match body with
  | none => ((400, badJsonBody), db)
  | some payload =>
    let errors := validatePayload payload
    if errors ≠ [] then ((422, validationFailedBody errors), db)
    else
      let dedupeKey := dedupeKeyFor payload
      let db := ensureSchema db
      match lookupReceipt db dedupeKey with
      | some r =>
        if r ≠ "" then ((200, duplicateBody r), db)
        else insertAndCount now payload db dedupeKey
      | none => insertAndCount now payload db dedupeKey

/-- The insert-and-count tail of `handleSubmit` in src/unnamed/part_000;
there is no try/catch there, so a storage error escapes the `fetch`
handler entirely (`none`: no JSON response is produced). -/
def insertAndCountU (now : String) (payload : JVal) (db : DBState) (dedupeKey : String) :
    Option ((Nat × JVal) × DBState) :=
  let receiptId := receiptIdOf dedupeKey
  let row : SubmissionRow :=
    { receipt_id := receiptId, dedupe_key := dedupeKey, created_utc := now,
      region := regionOf payload, payload_json := payload }
  match insertSubmission db row with
  | .error _ => none
  | .ok db1 => some ((200, countedBody receiptId), updateAggregatesU db1 payload)

/-- `handleSubmit` of src/unnamed/part_000. -/
def handleSubmitU (now : String) (body : Option JVal) (db : DBState) :
    Option ((Nat × JVal) × DBState) :=
  match body with
  | none => some ((400, badJsonBody), db)
  | some payload =>
    let errors := validate payload
    if errors ≠ [] then some ((422, validationFailedBody errors), db)
    else
      let dedupeKey := dedupeKeyFor payload
      match lookupReceipt db dedupeKey with
      | some r =>
        if r ≠ "" then some ((200, duplicateBody r), db)
        else insertAndCountU now payload db dedupeKey
      | none => insertAndCountU now payload db dedupeKey

/-! ## Results reporting -/

/-- `round1(x) = Math.round(x * 10) / 10`; JavaScript `Math.round`
rounds half toward positive infinity, i.e. `⌊x + 1/2⌋`, modelled over
exact rationals (the float division of the source agrees with exact
arithmetic on all claim-relevant inputs). -/
def round1 (x : ℚ) : ℚ := ((Int.floor (x * 10 + 1 / 2) : ℤ) : ℚ) / 10

/-- The rate field `t ? round1((c / t) * 100) : null`. -/
def rateField (c t : Nat) : JVal :=
  if t ≠ 0 then .num (round1 (((c : ℚ) / (t : ℚ)) * 100)) else .null

/-- `handleResults` of src/worker.js. -/
def handleResults (now : String) (db : DBState) : Nat × JVal :=
  let total := aggVal db "total_submissions_counted"
  let approve := aggVal db "approve_interim_yes"
  let prefer := aggVal db "prefer_open_contest_yes"
  let both := aggVal db "both_selected"
  let neither := aggVal db "neither_selected"
  (200, .obj [
    ("last_updated_utc", .str now),
    ("window", .obj [("open", .str "2026-01-03"), ("close", .str "2026-02-02"),
                     ("timezone", .str "America/Los_Angeles")]),
    ("ballot", .obj [
      ("total_submissions_counted", .num (total : ℚ)),
      ("approve_interim_yes", .num (approve : ℚ)),
      ("prefer_open_contest_yes", .num (prefer : ℚ)),
      ("both_selected", .num (both : ℚ)),
      ("neither_selected", .num (neither : ℚ)),
      ("approval_rate_percent", rateField approve total),
      ("prefer_open_rate_percent", rateField prefer total)]),
    ("regional_balance", .arr (db.region_counts.map (fun r => .obj [
      ("region", .str r.region),
      ("submissions_counted", .num (r.total : ℚ)),
      ("approve_rate_percent", rateField r.approve_yes r.total)]))),
    ("malcolm_insights", .null)])

/-! ## Iterated submission and the ledger invariant -/

/-- Run one submission request per element of `nows` (one wall-clock
string per call), collecting the responses. -/
def runSubmits (p : JVal) (nows : List String) (db : DBState) : List (Nat × JVal) × DBState :=
  match nows with
  | [] => ([], db)
  | now :: rest =>
    let out := handleSubmit now (some p) db
    let rest := runSubmits p rest out.2
    (out.1 :: rest.1, rest.2)

/-- Run an arbitrary sequence of submit calls (wall clock and parsed
body per call), returning the final store. -/
def runCalls (calls : List (String × Option JVal)) (db : DBState) : DBState :=
  calls.foldl (fun d c => (handleSubmit c.1 c.2 d).2) db

/-- Number of stored submissions whose payload selected exactly one of
the two ballot options. -/
def countExactlyOne (db : DBState) : Nat :=
  db.submissions.countP (fun r => Bool.xor (approveOf r.payload_json) (preferOf r.payload_json))

/-- The sum of the per-region totals. -/
def regionTotalSum (db : DBState) : Nat := (db.region_counts.map (fun r => r.total)).sum

/-- The number of distinct `dedupe_key` values in the submission store. -/
def distinctKeyCount (db : DBState) : Nat :=
  (db.submissions.map (fun r => r.dedupe_key)).dedup.length

/-- The receipts currently stored. -/
def storedReceipts (db : DBState) : List String := db.submissions.map (fun r => r.receipt_id)

/-- The ledger-consistency invariant of the claims: bucket counters sum
to the total, region totals sum to the total, and the total counts the
distinct dedupe keys of the submission store. -/
def LedgerInv (db : DBState) : Prop :=
  aggVal db "both_selected" + aggVal db "neither_selected" + countExactlyOne db
      = aggVal db "total_submissions_counted"
    ∧ regionTotalSum db = aggVal db "total_submissions_counted"
    ∧ aggVal db "total_submissions_counted" = distinctKeyCount db

/-- The inductive strengthening: both key columns with uniqueness
constraints are duplicate-free, and the ledger matches the store. -/
def StateOk (db : DBState) : Prop :=
  (db.submissions.map (fun r => r.dedupe_key)).Nodup
    ∧ (db.region_counts.map (fun r => r.region)).Nodup
    ∧ LedgerInv db

/-! ## Interleaving model of concurrent submit requests

Each request is handled independently; all shared state lives in the
store, and each prepared statement executes atomically (the interleaving
points are the `await`ed store calls of `handleSubmit`).  The aggregate
update runs as one block here: for requests carrying one common
fingerprint at most one request ever reaches it, so its internal
statements never race in the scenarios modelled. -/

/-- Control state of one in-flight submit request (post-validation). -/
inductive Phase where
  | checking : Phase
  | inserting : String → Phase
  | aggregating : String → Phase
  | responded : Nat × JVal → Phase

/-- One atomic step of a request carrying payload `p` at wall clock
`now` with fingerprint `key`, following `handleSubmit` of
src/worker.js: duplicate check, insert (a constraint violation becomes
an UNHANDLED 500 at the `fetch` boundary), aggregate update. -/
def stepThread (now : String) (p : JVal) (key : String) : Phase → DBState → Phase × DBState
  | .checking, db =>
    match lookupReceipt db key with
    | some r =>
      if r ≠ "" then (.responded (200, duplicateBody r), db)
      else (.inserting (receiptIdOf key), db)
    | none => (.inserting (receiptIdOf key), db)
  | .inserting rid, db =>
    let row : SubmissionRow :=
      { receipt_id := rid, dedupe_key := key, created_utc := now,
        region := regionOf p, payload_json := p }
    match insertSubmission db row with
    | .error e => (.responded (500, unhandledBody e), db)
    | .ok db1 => (.aggregating rid, db1)
  | .aggregating rid, db => (.responded (200, countedBody rid), updateAggregates db p)
  | .responded out, db => (.responded out, db)

/-- Two concurrent requests over one shared store. -/
structure JointState where
  dbase : DBState
  thA : Phase
  thB : Phase

/-- Run a schedule: `true` steps request A, `false` steps request B. -/
def runSched (now : String) (p : JVal) (key : String) : List Bool → JointState → JointState
  | [], s => s
  | pick :: rest, s =>
    if pick then
      let o := stepThread now p key s.thA s.dbase
      runSched now p key rest { dbase := o.2, thA := o.1, thB := s.thB }
    else
      let o := stepThread now p key s.thB s.dbase
      runSched now p key rest { dbase := o.2, thA := s.thA, thB := o.1 }

/-- Number of rows holding a given dedupe key. -/
def keyRowCount (db : DBState) (key : String) : Nat :=
  db.submissions.countP (fun r => decide (r.dedupe_key = key))

/-- The row inserted for an accepted payload `p` at wall clock `now`. -/
def subRow (now : String) (p : JVal) : SubmissionRow :=
  { receipt_id := receiptIdOf (dedupeKeyFor p), dedupe_key := dedupeKeyFor p,
    created_utc := now, region := regionOf p, payload_json := p }

/-- The payloads on which the two validators agree (see the analysis of
the transport variants): the payload is an object and its `context`
field passes the `typeof === "object"` check of src/worker.js. -/
def objShaped (p : JVal) : Bool :=
  truthy p && isObjType p && truthy (getField p "context") && isObjType (getField p "context")

/-! ## Concrete test vectors -/

/-- The well-formed scenario payload of the specification. -/
def pGood : JVal :=
  .obj [("voter_id", .str "v1"), ("schema_version", .str "1"),
        ("created_utc", .str "2026-01-05T00:00:00Z"),
        ("context", .obj [("region", .str "CA"), ("country_or_territory", .str "US")]),
        ("ballot_track_a", .obj [("approve_interim_masculine_regent", .bool true),
                                 ("prefer_open_contest_in_approx_90_days", .bool false)])]

/-- A second well-formed payload from the same voter and schema version
but with different ballot choices, region and timestamp. -/
def pGood2 : JVal :=
  .obj [("voter_id", .str "v1"), ("schema_version", .str "1"),
        ("created_utc", .str "2026-01-06T00:00:00Z"),
        ("context", .obj [("region", .str "TX"), ("country_or_territory", .str "US")]),
        ("ballot_track_a", .obj [("approve_interim_masculine_regent", .bool false),
                                 ("prefer_open_contest_in_approx_90_days", .bool true)])]

/-- A payload missing `schema_version` and `context.region`. -/
def pMissing : JVal :=
  .obj [("created_utc", .str "2026-01-05T00:00:00Z"), ("voter_id", .str "v9"),
        ("context", .obj [("country_or_territory", .str "US")])]

/-- The empty-object payload (no fields at all). -/
def pEmpty : JVal := .obj []

/-- The store after the scenario payload has been accepted once. -/
def dbOne : DBState := (handleSubmit "t1" (some pGood) emptyDB).2

/-- A ledger with `total_submissions_counted = 3` and
`approve_interim_yes = 1`. -/
def dbThree : DBState :=
  { emptyDB with aggregates := [("total_submissions_counted", 3), ("approve_interim_yes", 1)] }

/-- The row a racing request with fingerprint `key` tries to insert. -/
def raceRow (now : String) (p : JVal) (key : String) : SubmissionRow :=
  { receipt_id := receiptIdOf key, dedupe_key := key, created_utc := now,
    region := regionOf p, payload_json := p }

/-- The store after the race winner's insert. -/
def raceDB1 (now : String) (p : JVal) (key : String) (db0 : DBState) : DBState :=
  { db0 with submissions := db0.submissions ++ [raceRow now p key] }

/-- The store after the race winner's aggregate update. -/
def raceDB2 (now : String) (p : JVal) (key : String) (db0 : DBState) : DBState :=
  updateAggregates (raceDB1 now p key db0) p

/-- The phases the losing request of a same-fingerprint race can be in:
still checking, about to insert, responded with the duplicate response,
or responded with the UNHANDLED error from the lost insert race. -/
def loserPhase (key : String) (l : Phase) : Prop :=
  l = .checking ∨ l = .inserting (receiptIdOf key)
    ∨ l = .responded (200, duplicateBody (receiptIdOf key))
    ∨ l = .responded (500, unhandledBody "UNIQUE constraint failed: submissions.receipt_id")

/-- Reachable configurations of two same-fingerprint requests racing
over a store that is fresh for that fingerprint, listed by the winner's
progress (`w` the request that wins the insert, `l` the other). -/
def pairOK (now : String) (p : JVal) (key : String) (db0 : DBState)
    (w l : Phase) (db : DBState) : Prop :=
  (db = db0 ∧ w = .checking ∧ l = .checking)
  ∨ (db = db0 ∧ w = .inserting (receiptIdOf key)
      ∧ (l = .checking ∨ l = .inserting (receiptIdOf key)))
  ∨ (db = raceDB1 now p key db0 ∧ w = .aggregating (receiptIdOf key) ∧ loserPhase key l)
  ∨ (db = raceDB2 now p key db0 ∧ w = .responded (200, countedBody (receiptIdOf key))
      ∧ loserPhase key l)

/-- The race invariant, symmetric in the two requests. -/
def raceGood (now : String) (p : JVal) (key : String) (db0 : DBState)
    (s : JointState) : Prop :=
  pairOK now p key db0 s.thA s.thB s.dbase ∨ pairOK now p key db0 s.thB s.thA s.dbase

/-! ## Frame and counter lemmas -/

theorem receiptIdOf_ne_empty (key : String) : receiptIdOf key ≠ "" := by
  intro h
  have hlen := congrArg String.length h
  rw [receiptIdOf, String.length_append] at hlen
  simp at hlen
  exact absurd hlen.1 (by decide)

theorem bumpKV_fst (key : String) (kv : String × Nat) : (bumpKV key kv).1 = kv.1 := by
  unfold bumpKV; split <;> rfl

theorem bumpRow_region (reg : String) (a : Bool) (r : RegionRow) :
    (bumpRow reg a r).region = r.region := by
  unfold bumpRow; split <;> rfl

theorem incAgg_submissions (db : DBState) (key : String) :
    (incAgg db key).submissions = db.submissions := rfl

theorem incAgg_regions (db : DBState) (key : String) :
    (incAgg db key).region_counts = db.region_counts := rfl

theorem incIf_submissions (c : Bool) (db : DBState) (key : String) :
    (incIf c db key).submissions = db.submissions := by
  unfold incIf; split <;> rfl

theorem incIf_regions (c : Bool) (db : DBState) (key : String) :
    (incIf c db key).region_counts = db.region_counts := by
  unfold incIf; split <;> rfl

theorem regionEnsure_submissions (db : DBState) (reg : String) :
    (regionEnsure db reg).submissions = db.submissions := by
  unfold regionEnsure; split <;> rfl

theorem regionEnsure_aggregates (db : DBState) (reg : String) :
    (regionEnsure db reg).aggregates = db.aggregates := by
  unfold regionEnsure; split <;> rfl

theorem regionBump_submissions (db : DBState) (reg : String) (a : Bool) :
    (regionBump db reg a).submissions = db.submissions := rfl

theorem regionBump_aggregates (db : DBState) (reg : String) (a : Bool) :
    (regionBump db reg a).aggregates = db.aggregates := rfl

theorem updateAggregates_submissions (db : DBState) (p : JVal) :
    (updateAggregates db p).submissions = db.submissions := by
  simp only [updateAggregates, regionBump_submissions, regionEnsure_submissions,
    incIf_submissions, incAgg_submissions]

/-! ### Counter arithmetic -/

theorem find?_map_bumpKV (l : List (String × Nat)) (key k : String) :
    (l.map (bumpKV key)).find? (fun kv => decide (kv.1 = k))
      = (l.find? (fun kv => decide (kv.1 = k))).map (bumpKV key) := by
  rw [List.find?_map]
  have hpred : ((fun kv => decide (kv.1 = k)) ∘ bumpKV key)
      = (fun kv : String × Nat => decide (kv.1 = k)) := by
    funext kv
    simp [Function.comp, bumpKV_fst]
  rw [hpred]

theorem aggVal_incAgg_self (db : DBState) (key : String) :
    aggVal (incAgg db key) key = aggVal db key + 1 := by
  unfold aggVal incAgg lookupCount bumpList
  by_cases h : db.aggregates.any (fun kv => decide (kv.1 = key)) = true
  · rw [if_pos h, find?_map_bumpKV]
    cases hf : db.aggregates.find? (fun kv => decide (kv.1 = key)) with
    | none =>
      rcases List.any_eq_true.mp h with ⟨kv, hkv, hp⟩
      have := List.find?_eq_none.mp hf kv hkv
      simp [hp] at this
    | some kv =>
      have hp := List.find?_some hf
      have hk : kv.1 = key := of_decide_eq_true hp
      simp [bumpKV, hk]
  · rw [if_neg h]
    have hnone : db.aggregates.find? (fun kv => decide (kv.1 = key)) = none :=
      List.find?_eq_none.mpr (List.any_eq_false.mp (eq_false_of_ne_true h))
    rw [List.find?_append, hnone]
    simp

theorem aggVal_incAgg_ne (db : DBState) (key k : String) (h : k ≠ key) :
    aggVal (incAgg db key) k = aggVal db k := by
  unfold aggVal incAgg lookupCount bumpList
  by_cases hany : db.aggregates.any (fun kv => decide (kv.1 = key)) = true
  · rw [if_pos hany, find?_map_bumpKV]
    cases hf : db.aggregates.find? (fun kv => decide (kv.1 = k)) with
    | none => simp
    | some kv =>
      have hp := List.find?_some hf
      have hk : kv.1 = k := of_decide_eq_true hp
      have hne : kv.1 ≠ key := by rw [hk]; exact h
      simp [bumpKV, hne]
  · rw [if_neg hany, List.find?_append]
    cases hf : db.aggregates.find? (fun kv => decide (kv.1 = k)) with
    | none => simp [hf, Ne.symm h]
    | some kv => simp [hf]

theorem aggVal_incIf_self (c : Bool) (db : DBState) (key : String) :
    aggVal (incIf c db key) key = aggVal db key + (if c then 1 else 0) := by
  cases c <;> simp [incIf, aggVal_incAgg_self]

theorem aggVal_incIf_ne (c : Bool) (db : DBState) (key k : String) (h : k ≠ key) :
    aggVal (incIf c db key) k = aggVal db k := by
  cases c <;> simp [incIf, aggVal_incAgg_ne _ _ _ h]

theorem aggVal_regionEnsure (db : DBState) (reg : String) (k : String) :
    aggVal (regionEnsure db reg) k = aggVal db k := by
  unfold aggVal
  rw [regionEnsure_aggregates]

theorem aggVal_regionBump (db : DBState) (reg : String) (a : Bool) (k : String) :
    aggVal (regionBump db reg a) k = aggVal db k := by
  unfold aggVal
  rw [regionBump_aggregates]

theorem aggVal_updateAggregates_total (db : DBState) (p : JVal) :
    aggVal (updateAggregates db p) "total_submissions_counted"
      = aggVal db "total_submissions_counted" + 1 := by
  simp only [updateAggregates]
  rw [aggVal_regionBump, aggVal_regionEnsure,
    aggVal_incIf_ne _ _ _ _ (by decide), aggVal_incIf_ne _ _ _ _ (by decide),
    aggVal_incIf_ne _ _ _ _ (by decide), aggVal_incIf_ne _ _ _ _ (by decide),
    aggVal_incAgg_self]

theorem aggVal_updateAggregates_both (db : DBState) (p : JVal) :
    aggVal (updateAggregates db p) "both_selected"
      = aggVal db "both_selected" + (if approveOf p && preferOf p then 1 else 0) := by
  simp only [updateAggregates]
  rw [aggVal_regionBump, aggVal_regionEnsure,
    aggVal_incIf_ne _ _ _ _ (by decide), aggVal_incIf_self,
    aggVal_incIf_ne _ _ _ _ (by decide), aggVal_incIf_ne _ _ _ _ (by decide),
    aggVal_incAgg_ne _ _ _ (by decide)]

theorem aggVal_updateAggregates_neither (db : DBState) (p : JVal) :
    aggVal (updateAggregates db p) "neither_selected"
      = aggVal db "neither_selected" + (if !approveOf p && !preferOf p then 1 else 0) := by
  simp only [updateAggregates]
  rw [aggVal_regionBump, aggVal_regionEnsure, aggVal_incIf_self,
    aggVal_incIf_ne _ _ _ _ (by decide), aggVal_incIf_ne _ _ _ _ (by decide),
    aggVal_incIf_ne _ _ _ _ (by decide), aggVal_incAgg_ne _ _ _ (by decide)]

/-! ### Region-counter arithmetic -/

theorem sum_total_map_bumpRow (l : List RegionRow) (reg : String) (a : Bool) :
    ((l.map (bumpRow reg a)).map (fun r => r.total)).sum
      = (l.map (fun r => r.total)).sum + l.countP (fun r => decide (r.region = reg)) := by
  induction l with
  | nil => rfl
  | cons r t ih =>
    by_cases h : r.region = reg
    · simp only [List.map_cons, List.sum_cons, List.countP_cons, ih, bumpRow, if_pos h, h]
      simp
      omega
    · have hd : (decide (r.region = reg)) = false := decide_eq_false h
      simp only [List.map_cons, List.sum_cons, List.countP_cons, ih, bumpRow, if_neg h, hd]
      simp
      omega

theorem regionTotalSum_regionBump (db : DBState) (reg : String) (a : Bool) :
    regionTotalSum (regionBump db reg a)
      = regionTotalSum db + db.region_counts.countP (fun r => decide (r.region = reg)) := by
  unfold regionTotalSum regionBump
  exact sum_total_map_bumpRow _ _ _

theorem regionTotalSum_regionEnsure (db : DBState) (reg : String) :
    regionTotalSum (regionEnsure db reg) = regionTotalSum db := by
  unfold regionTotalSum regionEnsure
  split
  · rfl
  · simp

theorem countP_region_le_one (l : List RegionRow) (reg : String)
    (h : (l.map (fun r => r.region)).Nodup) :
    l.countP (fun r => decide (r.region = reg)) ≤ 1 := by
  induction l with
  | nil => simp
  | cons r t ih =>
    rw [List.map_cons, List.nodup_cons] at h
    by_cases hr : r.region = reg
    · have hzero : t.countP (fun x => decide (x.region = reg)) = 0 := by
        rw [List.countP_eq_zero]
        intro x hx hp
        have hxr : x.region = reg := of_decide_eq_true hp
        exact h.1 (List.mem_map.mpr ⟨x, hx, by rw [hxr, hr]⟩)
      simp [List.countP_cons, hr, hzero]
    · simp [List.countP_cons, hr]
      exact ih h.2

theorem countP_regionEnsure (db : DBState) (reg : String)
    (h : (db.region_counts.map (fun r => r.region)).Nodup) :
    (regionEnsure db reg).region_counts.countP (fun r => decide (r.region = reg)) = 1 := by
  unfold regionEnsure
  by_cases hany : db.region_counts.any (fun r => decide (r.region = reg)) = true
  · rw [if_pos hany]
    have hpos : 0 < db.region_counts.countP (fun r => decide (r.region = reg)) :=
      List.countP_pos_iff.mpr (List.any_eq_true.mp hany)
    have hle := countP_region_le_one db.region_counts reg h
    omega
  · rw [if_neg hany]
    have hzero : db.region_counts.countP (fun r => decide (r.region = reg)) = 0 :=
      List.countP_eq_zero.mpr (List.any_eq_false.mp (eq_false_of_ne_true hany))
    simp [List.countP_append, hzero]

theorem regions_map_regionEnsure_nodup (db : DBState) (reg : String)
    (h : (db.region_counts.map (fun r => r.region)).Nodup) :
    ((regionEnsure db reg).region_counts.map (fun r => r.region)).Nodup := by
  unfold regionEnsure
  by_cases hany : db.region_counts.any (fun r => decide (r.region = reg)) = true
  · rw [if_pos hany]; exact h
  · rw [if_neg hany]
    have hnotmem : reg ∉ db.region_counts.map (fun r => r.region) := by
      intro hmem
      rcases List.mem_map.mp hmem with ⟨r, hr, hrr⟩
      have : db.region_counts.any (fun r => decide (r.region = reg)) = true :=
        List.any_eq_true.mpr ⟨r, hr, decide_eq_true hrr⟩
      exact hany this
    simp [List.map_append, List.nodup_append, h, List.disjoint_singleton, hnotmem]

theorem regions_map_regionBump (db : DBState) (reg : String) (a : Bool) :
    (regionBump db reg a).region_counts.map (fun r => r.region)
      = db.region_counts.map (fun r => r.region) := by
  unfold regionBump
  rw [List.map_map]
  exact List.map_congr_left (fun r _ => bumpRow_region reg a r)

theorem regions_nodup_updateAggregates (db : DBState) (p : JVal)
    (h : (db.region_counts.map (fun r => r.region)).Nodup) :
    ((updateAggregates db p).region_counts.map (fun r => r.region)).Nodup := by
  simp only [updateAggregates]
  rw [regions_map_regionBump]
  apply regions_map_regionEnsure_nodup
  simp only [incIf_regions, incAgg_regions]
  exact h

theorem regionTotalSum_updateAggregates (db : DBState) (p : JVal)
    (h : (db.region_counts.map (fun r => r.region)).Nodup) :
    regionTotalSum (updateAggregates db p) = regionTotalSum db + 1 := by
  simp only [updateAggregates]
  have hframe : ∀ (c : Bool) (d : DBState) k, (incIf c d k).region_counts = d.region_counts :=
    incIf_regions
  rw [regionTotalSum_regionBump, countP_regionEnsure, regionTotalSum_regionEnsure]
  · unfold regionTotalSum
    simp only [incIf_regions, incAgg_regions]
  · simp only [incIf_regions, incAgg_regions]
    exact h

/-! ### Lookup and insert lemmas -/

theorem lookup_none_find (db : DBState) (key : String)
    (h : lookupReceipt db key = none) :
    db.submissions.find? (fun r => decide (r.dedupe_key = key)) = none := by
  unfold lookupReceipt at h
  exact Option.map_eq_none'.mp h

theorem lookup_none_any (db : DBState) (key : String)
    (h : lookupReceipt db key = none) :
    db.submissions.any (fun r => decide (r.dedupe_key = key)) = false := by
  rw [List.any_eq_false]
  exact List.find?_eq_none.mp (lookup_none_find db key h)

theorem insertSubmission_ok (db : DBState) (row : SubmissionRow)
    (hrec : row.receipt_id ∉ storedReceipts db)
    (hkey : lookupReceipt db row.dedupe_key = none) :
    insertSubmission db row = .ok { db with submissions := db.submissions ++ [row] } := by
  unfold insertSubmission
  have h1 : db.submissions.any (fun r => decide (r.receipt_id = row.receipt_id)) = false := by
    rw [List.any_eq_false]
    intro x hx hp
    exact hrec (List.mem_map.mpr ⟨x, hx, of_decide_eq_true hp⟩)
  have h2 := lookup_none_any db row.dedupe_key hkey
  simp [h1, h2]

theorem insertSubmission_err_of_mem (db : DBState) (row : SubmissionRow)
    (h : row.receipt_id ∈ storedReceipts db) :
    insertSubmission db row = .error "UNIQUE constraint failed: submissions.receipt_id" := by
  unfold insertSubmission
  rcases List.mem_map.mp h with ⟨x, hx, hxr⟩
  have hany : db.submissions.any (fun r => decide (r.receipt_id = row.receipt_id)) = true :=
    List.any_eq_true.mpr ⟨x, hx, decide_eq_true hxr⟩
  simp [hany]

theorem lookupReceipt_append_self (db : DBState) (row : SubmissionRow)
    (h : lookupReceipt db row.dedupe_key = none) :
    lookupReceipt { db with submissions := db.submissions ++ [row] } row.dedupe_key
      = some row.receipt_id := by
  show (((db.submissions ++ [row]).find? (fun r => decide (r.dedupe_key = row.dedupe_key))).map
    (fun r => r.receipt_id)) = some row.receipt_id
  rw [List.find?_append, lookup_none_find db _ h]
  simp

theorem lookupReceipt_updateAggregates (db : DBState) (p : JVal) (key : String) :
    lookupReceipt (updateAggregates db p) key = lookupReceipt db key := by
  unfold lookupReceipt
  rw [updateAggregates_submissions]

theorem countExactlyOne_updateAggregates (db : DBState) (p : JVal) :
    countExactlyOne (updateAggregates db p) = countExactlyOne db := by
  unfold countExactlyOne
  rw [updateAggregates_submissions]

theorem countExactlyOne_append (db : DBState) (row : SubmissionRow) :
    countExactlyOne { db with submissions := db.submissions ++ [row] }
      = countExactlyOne db
        + (if Bool.xor (approveOf row.payload_json) (preferOf row.payload_json) then 1 else 0) := by
  unfold countExactlyOne
  rw [show ({ db with submissions := db.submissions ++ [row] } : DBState).submissions
      = db.submissions ++ [row] from rfl, List.countP_append]
  simp [List.countP_cons]

theorem keyRowCount_zero (db : DBState) (key : String)
    (h : lookupReceipt db key = none) : keyRowCount db key = 0 := by
  unfold keyRowCount
  exact List.countP_eq_zero.mpr (List.find?_eq_none.mp (lookup_none_find db key h))

theorem keyRowCount_append_self (db : DBState) (row : SubmissionRow) :
    keyRowCount { db with submissions := db.submissions ++ [row] } row.dedupe_key
      = keyRowCount db row.dedupe_key + 1 := by
  unfold keyRowCount
  rw [show ({ db with submissions := db.submissions ++ [row] } : DBState).submissions
      = db.submissions ++ [row] from rfl, List.countP_append]
  simp [List.countP_cons]

theorem keyRowCount_updateAggregates (db : DBState) (p : JVal) (key : String) :
    keyRowCount (updateAggregates db p) key = keyRowCount db key := by
  unfold keyRowCount
  rw [updateAggregates_submissions]

theorem distinctKeyCount_of_nodup (db : DBState)
    (h : (db.submissions.map (fun r => r.dedupe_key)).Nodup) :
    distinctKeyCount db = db.submissions.length := by
  unfold distinctKeyCount
  rw [List.dedup_eq_self.mpr h, List.length_map]

/-! ### Characterizations of the submit handlers -/

theorem handleSubmit_none (now : String) (db : DBState) :
    handleSubmit now none db = ((400, badJsonBody), db) := rfl

theorem handleSubmit_invalid (now : String) (p : JVal) (db : DBState)
    (h : validatePayload p ≠ []) :
    handleSubmit now (some p) db = ((422, validationFailedBody (validatePayload p)), db) := by
  simp only [handleSubmit]
  rw [if_pos h]

theorem handleSubmit_dup (now : String) (p : JVal) (db : DBState) (r : String)
    (hv : validatePayload p = []) (hl : lookupReceipt db (dedupeKeyFor p) = some r)
    (hr : r ≠ "") :
    handleSubmit now (some p) db = ((200, duplicateBody r), db) := by
  simp only [handleSubmit, ensureSchema, hv, ne_eq, not_true_eq_false, if_false, hl, hr,
    not_false_eq_true, if_true]

theorem insertAndCount_ok (now : String) (p : JVal) (db : DBState) (key : String)
    (hrec : receiptIdOf key ∉ storedReceipts db)
    (hl : lookupReceipt db key = none) :
    insertAndCount now p db key =
      ((200, countedBody (receiptIdOf key)),
       updateAggregates { db with submissions := db.submissions ++
         [{ receipt_id := receiptIdOf key, dedupe_key := key, created_utc := now,
            region := regionOf p, payload_json := p }] } p) := by
  simp only [insertAndCount]
  rw [insertSubmission_ok db
    { receipt_id := receiptIdOf key, dedupe_key := key, created_utc := now,
      region := regionOf p, payload_json := p } hrec hl]

theorem insertAndCount_err (now : String) (p : JVal) (db : DBState) (key : String)
    (hrec : receiptIdOf key ∈ storedReceipts db) :
    insertAndCount now p db key =
      ((500, unhandledBody "UNIQUE constraint failed: submissions.receipt_id"), db) := by
  simp only [insertAndCount]
  rw [insertSubmission_err_of_mem db
    { receipt_id := receiptIdOf key, dedupe_key := key, created_utc := now,
      region := regionOf p, payload_json := p } hrec]

theorem handleSubmit_fresh (now : String) (p : JVal) (db : DBState)
    (hv : validatePayload p = [])
    (hl : lookupReceipt db (dedupeKeyFor p) = none)
    (hrec : receiptIdOf (dedupeKeyFor p) ∉ storedReceipts db) :
    handleSubmit now (some p) db =
      ((200, countedBody (receiptIdOf (dedupeKeyFor p))),
       updateAggregates { db with submissions := db.submissions ++ [subRow now p] } p) := by
  simp only [handleSubmit, ensureSchema]
  simp only [hv, ne_eq, not_true_eq_false, if_false, hl]
  exact insertAndCount_ok now p db (dedupeKeyFor p) hrec hl

theorem lookup_some_any (db : DBState) (key : String) (r : String)
    (h : lookupReceipt db key = some r) :
    db.submissions.any (fun x => decide (x.dedupe_key = key)) = true := by
  unfold lookupReceipt at h
  cases hf : db.submissions.find? (fun x => decide (x.dedupe_key = key)) with
  | none => rw [hf] at h; simp at h
  | some row =>
    have hmem := List.mem_of_find?_eq_some hf
    have hp := List.find?_some hf
    exact List.any_eq_true.mpr ⟨row, hmem, hp⟩

theorem insertAndCount_state_key_conflict (now : String) (p : JVal) (db : DBState) (key : String)
    (hk : db.submissions.any (fun r => decide (r.dedupe_key = key)) = true) :
    (insertAndCount now p db key).2 = db := by
  simp only [insertAndCount, insertSubmission]
  by_cases h1 : db.submissions.any (fun r => decide (r.receipt_id = receiptIdOf key)) = true
  · simp [h1]
  · simp [eq_false_of_ne_true h1, hk]

theorem handleSubmit_empty_receipt_state (now : String) (p : JVal) (db : DBState)
    (hv : validatePayload p = []) (hl : lookupReceipt db (dedupeKeyFor p) = some "") :
    (handleSubmit now (some p) db).2 = db := by
  simp only [handleSubmit, ensureSchema, hv, ne_eq, not_true_eq_false, if_false, hl,
    not_true, ite_false]
  exact insertAndCount_state_key_conflict now p db (dedupeKeyFor p)
    (lookup_some_any db _ _ hl)

theorem handleSubmit_receipt_conflict (now : String) (p : JVal) (db : DBState)
    (hv : validatePayload p = [])
    (hl : lookupReceipt db (dedupeKeyFor p) = none)
    (hrec : receiptIdOf (dedupeKeyFor p) ∈ storedReceipts db) :
    handleSubmit now (some p) db =
      ((500, unhandledBody "UNIQUE constraint failed: submissions.receipt_id"), db) := by
  simp only [handleSubmit, ensureSchema, hv, ne_eq, not_true_eq_false, if_false, hl]
  exact insertAndCount_err now p db (dedupeKeyFor p) hrec

/-! ### Preservation of the ledger invariant -/

theorem stateOk_empty : StateOk emptyDB := by
  refine ⟨List.nodup_nil, List.nodup_nil, rfl, rfl, rfl⟩

theorem stateOk_accept (db : DBState) (now : String) (p : JVal)
    (hl : lookupReceipt db (dedupeKeyFor p) = none)
    (h : StateOk db) :
    StateOk (updateAggregates { db with submissions := db.submissions ++ [subRow now p] } p) := by
  obtain ⟨hkeys, hregs, hbuckets, hsum, htot⟩ := h
  have hknew : dedupeKeyFor p ∉ db.submissions.map (fun r => r.dedupe_key) := by
    intro hmem
    rcases List.mem_map.mp hmem with ⟨x, hx, hxk⟩
    have hfx := List.find?_eq_none.mp (lookup_none_find db _ hl) x hx
    simp [hxk] at hfx
  have hkeys1 : (({ db with submissions := db.submissions ++ [subRow now p] } :
      DBState).submissions.map (fun r => r.dedupe_key)).Nodup := by
    show ((db.submissions ++ [subRow now p]).map (fun r => r.dedupe_key)).Nodup
    rw [List.map_append]
    refine List.nodup_append.mpr ⟨hkeys, List.nodup_singleton _, ?_⟩
    rw [show (List.map (fun r => r.dedupe_key) [subRow now p]) = [dedupeKeyFor p] from rfl]
    exact List.disjoint_singleton.mpr hknew
  have hlen : ({ db with submissions := db.submissions ++ [subRow now p] } :
      DBState).submissions.length = db.submissions.length + 1 := by
    show (db.submissions ++ [subRow now p]).length = _
    simp
  refine ⟨?_, ?_, ?_, ?_, ?_⟩
  · rw [show (updateAggregates { db with submissions := db.submissions ++ [subRow now p] } p
        ).submissions = ({ db with submissions := db.submissions ++ [subRow now p] } :
        DBState).submissions from updateAggregates_submissions _ _]
    exact hkeys1
  · exact regions_nodup_updateAggregates _ p hregs
  · rw [aggVal_updateAggregates_both, aggVal_updateAggregates_neither,
      countExactlyOne_updateAggregates, countExactlyOne_append,
      aggVal_updateAggregates_total]
    have hb : aggVal { db with submissions := db.submissions ++ [subRow now p] }
        "both_selected" = aggVal db "both_selected" := rfl
    have hn : aggVal { db with submissions := db.submissions ++ [subRow now p] }
        "neither_selected" = aggVal db "neither_selected" := rfl
    have ht : aggVal { db with submissions := db.submissions ++ [subRow now p] }
        "total_submissions_counted" = aggVal db "total_submissions_counted" := rfl
    have hc : countExactlyOne { db with submissions := db.submissions ++ [subRow now p] } =
        countExactlyOne { db with submissions := db.submissions ++ [subRow now p] } := rfl
    rw [hb, hn, ht]
    have hrow : (subRow now p).payload_json = p := rfl
    rw [hrow]
    cases ha : approveOf p <;> cases hp : preferOf p <;> simp <;> omega
  · have hregs1 : (({ db with submissions := db.submissions ++ [subRow now p] } :
        DBState).region_counts.map (fun r => r.region)).Nodup := hregs
    rw [regionTotalSum_updateAggregates _ p hregs1, aggVal_updateAggregates_total]
    have ht : aggVal { db with submissions := db.submissions ++ [subRow now p] }
        "total_submissions_counted" = aggVal db "total_submissions_counted" := rfl
    have hs : regionTotalSum { db with submissions := db.submissions ++ [subRow now p] }
        = regionTotalSum db := rfl
    rw [ht, hs, hsum]
  · rw [aggVal_updateAggregates_total, distinctKeyCount_of_nodup _ ?hnd]
    case hnd =>
      rw [show (updateAggregates { db with submissions := db.submissions ++ [subRow now p] } p
          ).submissions = ({ db with submissions := db.submissions ++ [subRow now p] } :
          DBState).submissions from updateAggregates_submissions _ _]
      exact hkeys1
    rw [show (updateAggregates { db with submissions := db.submissions ++ [subRow now p] } p
        ).submissions = ({ db with submissions := db.submissions ++ [subRow now p] } :
        DBState).submissions from updateAggregates_submissions _ _]
    rw [hlen]
    have ht : aggVal { db with submissions := db.submissions ++ [subRow now p] }
        "total_submissions_counted" = aggVal db "total_submissions_counted" := rfl
    rw [ht, htot, distinctKeyCount_of_nodup db hkeys]

theorem stateOk_step (now : String) (body : Option JVal) (db : DBState)
    (h : StateOk db) : StateOk (handleSubmit now body db).2 := by
  cases body with
  | none => exact h
  | some p =>
    by_cases hv : validatePayload p = []
    · cases hlk : lookupReceipt db (dedupeKeyFor p) with
      | some r =>
        by_cases hr : r = ""
        · subst hr
          rw [handleSubmit_empty_receipt_state now p db hv hlk]
          exact h
        · rw [handleSubmit_dup now p db r hv hlk hr]
          exact h
      | none =>
        by_cases hrec : receiptIdOf (dedupeKeyFor p) ∈ storedReceipts db
        · rw [handleSubmit_receipt_conflict now p db hv hlk hrec]
          exact h
        · rw [handleSubmit_fresh now p db hv hlk hrec]
          exact stateOk_accept db now p hlk h
    · rw [handleSubmit_invalid now p db hv]
      exact h

theorem stateOk_runCalls (calls : List (String × Option JVal)) (db : DBState)
    (h : StateOk db) : StateOk (runCalls calls db) := by
  induction calls generalizing db with
  | nil => exact h
  | cons c cs ih =>
    show StateOk (runCalls cs (handleSubmit c.1 c.2 db).2)
    exact ih _ (stateOk_step c.1 c.2 db h)

theorem runSubmits_dup (p : JVal) (nows : List String) (db : DBState) (r : String)
    (hv : validatePayload p = []) (hl : lookupReceipt db (dedupeKeyFor p) = some r)
    (hr : r ≠ "") :
    runSubmits p nows db = (List.replicate nows.length (200, duplicateBody r), db) := by
  induction nows with
  | nil => rfl
  | cons now rest ih =>
    simp only [runSubmits]
    rw [handleSubmit_dup now p db r hv hl hr, ih]
    simp [List.replicate_succ]

/-! ### Validator facts -/

theorem truthy_getField_obj (v : JVal) (k : String) (h : truthy (getField v k) = true) :
    truthy v = true ∧ isObjType v = true := by
  cases v <;> simp [getField, truthy, isObjType] at h ⊢

theorem validatePayload_eq_nil_iff (p : JVal) :
    (validatePayload p = []) ↔ wellFormed p = true := by
  unfold validatePayload wellFormed
  by_cases h1 : (truthy p && isObjType p) = true
  · by_cases h2 : truthy (getField p "schema_version") = true
    all_goals by_cases h3 : truthy (getField p "created_utc") = true
    all_goals by_cases h4 : truthy (getField p "voter_id") = true
    all_goals by_cases h5 : (truthy (getField p "context") && isObjType (getField p "context")) = true
    all_goals by_cases h6 : truthy (getField (getField p "context") "region") = true
    all_goals by_cases h7 : truthy (getField (getField p "context") "country_or_territory") = true
    all_goals simp [h1, h2, h3, h4, h5, h6, h7]
  · simp [eq_false_of_ne_true h1]

theorem validate_eq_nil_iff (p : JVal) :
    (validate p = []) ↔ wellFormed p = true := by
  unfold validate wellFormed
  by_cases h2 : truthy (getField p "schema_version") = true
  all_goals by_cases h3 : truthy (getField p "created_utc") = true
  all_goals by_cases h4 : truthy (getField p "voter_id") = true
  all_goals by_cases h6 : truthy (getField (getField p "context") "region") = true
  all_goals by_cases h7 : truthy (getField (getField p "context") "country_or_territory") = true
  case pos =>
    obtain ⟨htp, hop⟩ := truthy_getField_obj p "schema_version" h2
    obtain ⟨htc, hoc⟩ := truthy_getField_obj (getField p "context") "region" h6
    simp [h2, h3, h4, h6, h7, htp, hop, htc, hoc]
  all_goals simp [h2, h3, h4, h6, h7]


theorem validatePayload_collects (p : JVal) (hobj : (truthy p && isObjType p) = true) :
    (truthy (getField p "schema_version") = false →
      "Missing schema_version" ∈ validatePayload p)
  ∧ (truthy (getField p "created_utc") = false →
      "Missing created_utc" ∈ validatePayload p)
  ∧ (truthy (getField p "voter_id") = false →
      "Missing voter_id" ∈ validatePayload p)
  ∧ ((truthy (getField p "context") && isObjType (getField p "context")) = false →
      "Missing context object" ∈ validatePayload p)
  ∧ (truthy (getField (getField p "context") "region") = false →
      "Missing context.region" ∈ validatePayload p)
  ∧ (truthy (getField (getField p "context") "country_or_territory") = false →
      "Missing context.country_or_territory" ∈ validatePayload p) := by
  unfold validatePayload
  refine ⟨fun h => ?_, fun h => ?_, fun h => ?_, fun h => ?_, fun h => ?_, fun h => ?_⟩ <;>
    simp [hobj, h]

theorem validate_collects (p : JVal) :
    (truthy (getField p "schema_version") = false →
      "Missing schema_version" ∈ validate p)
  ∧ (truthy (getField p "created_utc") = false →
      "Missing created_utc" ∈ validate p)
  ∧ (truthy (getField p "voter_id") = false →
      "Missing voter_id" ∈ validate p)
  ∧ (truthy (getField (getField p "context") "region") = false →
      "Missing context.region" ∈ validate p)
  ∧ (truthy (getField (getField p "context") "country_or_territory") = false →
      "Missing context.country_or_territory" ∈ validate p) := by
  unfold validate
  refine ⟨fun h => ?_, fun h => ?_, fun h => ?_, fun h => ?_, fun h => ?_⟩ <;>
    simp [h]

theorem validators_agree (p : JVal) (h : objShaped p = true) :
    validatePayload p = validate p := by
  unfold objShaped at h
  simp only [Bool.and_eq_true] at h
  obtain ⟨⟨⟨htp, hop⟩, htc⟩, hoc⟩ := h
  unfold validatePayload validate
  simp [htp, hop, htc, hoc]

theorem map_bumpRow_id (l : List RegionRow) (reg : String) (a : Bool)
    (h : l.any (fun r => decide (r.region = reg)) = false) :
    l.map (bumpRow reg a) = l := by
  induction l with
  | nil => rfl
  | cons r t ih =>
    simp only [List.any_cons, Bool.or_eq_false_iff] at h
    rw [List.map_cons, ih h.2]
    have hr : ¬(r.region = reg) := by
      intro he
      simp [he] at h
    rw [show bumpRow reg a r = r from by unfold bumpRow; rw [if_neg hr]]

theorem updateAggregatesU_eq (db : DBState) (p : JVal) :
    updateAggregatesU db p = updateAggregates db p := by
  simp only [updateAggregatesU, updateAggregates, regionEnsure, regionBump]
  set db5 := incIf (!approveOf p && !preferOf p)
      (incIf (approveOf p && preferOf p)
        (incIf (preferOf p)
          (incIf (approveOf p) (incAgg db "total_submissions_counted") "approve_interim_yes")
          "prefer_open_contest_yes")
        "both_selected")
      "neither_selected" with hdb5
  by_cases hany : db5.region_counts.any (fun r => decide (r.region = regionOf p)) = true
  · rw [if_pos hany, if_pos hany]
  · rw [if_neg hany, if_neg hany]
    have hmap := map_bumpRow_id db5.region_counts (regionOf p) (approveOf p)
      (eq_false_of_ne_true hany)
    simp [List.map_append, hmap, bumpRow]

/-! ### The unnamed transport variant -/

theorem handleSubmitU_none (now : String) (db : DBState) :
    handleSubmitU now none db = some ((400, badJsonBody), db) := rfl

theorem handleSubmitU_invalid (now : String) (p : JVal) (db : DBState)
    (h : validate p ≠ []) :
    handleSubmitU now (some p) db = some ((422, validationFailedBody (validate p)), db) := by
  simp only [handleSubmitU]
  rw [if_pos h]

theorem handleSubmitU_dup (now : String) (p : JVal) (db : DBState) (r : String)
    (hv : validate p = []) (hl : lookupReceipt db (dedupeKeyFor p) = some r)
    (hr : r ≠ "") :
    handleSubmitU now (some p) db = some ((200, duplicateBody r), db) := by
  simp only [handleSubmitU, hv, ne_eq, not_true_eq_false, if_false, hl, hr,
    not_false_eq_true, if_true]

theorem insertAndCount_pair (now : String) (p : JVal) (db : DBState) (key : String) :
    (∃ e, insertAndCount now p db key = ((500, unhandledBody e), db)
        ∧ insertAndCountU now p db key = none)
    ∨ (∃ db1,
        insertSubmission db
          { receipt_id := receiptIdOf key, dedupe_key := key, created_utc := now,
            region := regionOf p, payload_json := p } = .ok db1
        ∧ insertAndCount now p db key = ((200, countedBody (receiptIdOf key)), updateAggregates db1 p)
        ∧ insertAndCountU now p db key = some ((200, countedBody (receiptIdOf key)), updateAggregatesU db1 p)) := by
  cases hi : insertSubmission db
      { receipt_id := receiptIdOf key, dedupe_key := key, created_utc := now,
        region := regionOf p, payload_json := p } with
  | error e =>
    left
    refine ⟨e, ?_, ?_⟩
    · simp only [insertAndCount]
      rw [hi]
    · simp only [insertAndCountU]
      rw [hi]
  | ok db1 =>
    right
    refine ⟨db1, rfl, ?_, ?_⟩
    · simp only [insertAndCount]
      rw [hi]
    · simp only [insertAndCountU]
      rw [hi]

theorem variants_agree_submit (now : String) (body : Option JVal) (db : DBState)
    (h : ∀ p, body = some p → objShaped p = true) :
    (∃ e, handleSubmitU now body db = none
        ∧ handleSubmit now body db = ((500, unhandledBody e), db))
    ∨ handleSubmitU now body db = some (handleSubmit now body db) := by
  cases body with
  | none => exact Or.inr rfl
  | some p =>
    have hsh := h p rfl
    have hvv : validate p = validatePayload p := (validators_agree p hsh).symm
    by_cases hv : validatePayload p = []
    · cases hlk : lookupReceipt db (dedupeKeyFor p) with
      | some r =>
        by_cases hr : r = ""
        · subst hr
          have hU : handleSubmitU now (some p) db = insertAndCountU now p db (dedupeKeyFor p) := by
            simp only [handleSubmitU, hvv, hv, ne_eq, not_true_eq_false, if_false, hlk,
              not_false_eq_true, if_true, ite_false]
          have hW : handleSubmit now (some p) db = insertAndCount now p db (dedupeKeyFor p) := by
            simp only [handleSubmit, ensureSchema, hv, ne_eq, not_true_eq_false, if_false, hlk,
              not_false_eq_true, if_true, ite_false]
          rcases insertAndCount_pair now p db (dedupeKeyFor p) with ⟨e, hic, hicU⟩ | ⟨db1, hi, hic, hicU⟩
          · exact Or.inl ⟨e, by rw [hU, hicU], by rw [hW, hic]⟩
          · right
            rw [hU, hicU, hW, hic, updateAggregatesU_eq]
        · right
          rw [handleSubmit_dup now p db r hv hlk hr,
            handleSubmitU_dup now p db r (hvv.trans hv) hlk hr]
      | none =>
        rcases insertAndCount_pair now p db (dedupeKeyFor p) with ⟨e, hic, hicU⟩ | ⟨db1, hi, hic, hicU⟩
        · refine Or.inl ⟨e, ?_, ?_⟩
          · simp only [handleSubmitU, hvv, hv, ne_eq, not_true_eq_false, if_false, hlk]
            exact hicU
          · simp only [handleSubmit, ensureSchema, hv, ne_eq, not_true_eq_false, if_false, hlk]
            exact hic
        · right
          have hU : handleSubmitU now (some p) db = insertAndCountU now p db (dedupeKeyFor p) := by
            simp only [handleSubmitU, hvv, hv, ne_eq, not_true_eq_false, if_false, hlk]
          have hW : handleSubmit now (some p) db = insertAndCount now p db (dedupeKeyFor p) := by
            simp only [handleSubmit, ensureSchema, hv, ne_eq, not_true_eq_false, if_false, hlk]
          rw [hU, hicU, hW, hic, updateAggregatesU_eq]
      -- leftover? (some r, r ≠ "")
    · right
      rw [handleSubmit_invalid now p db hv,
        handleSubmitU_invalid now p db (fun hh => hv (hvv.symm.trans hh)), hvv]

/-! ### The race invariant -/

theorem stepThread_checking_none (now : String) (p : JVal) (key : String) (db : DBState)
    (h : lookupReceipt db key = none) :
    stepThread now p key .checking db = (.inserting (receiptIdOf key), db) := by
  simp only [stepThread, h]

theorem stepThread_checking_some (now : String) (p : JVal) (key : String) (db : DBState)
    (r : String) (h : lookupReceipt db key = some r) (hr : r ≠ "") :
    stepThread now p key .checking db = (.responded (200, duplicateBody r), db) := by
  simp only [stepThread, h, hr, ne_eq, not_false_eq_true, if_true]

theorem stepThread_inserting_ok (now : String) (p : JVal) (key : String) (db : DBState)
    (hrec : receiptIdOf key ∉ storedReceipts db) (hl : lookupReceipt db key = none) :
    stepThread now p key (.inserting (receiptIdOf key)) db
      = (.aggregating (receiptIdOf key), raceDB1 now p key db) := by
  simp only [stepThread]
  rw [insertSubmission_ok db
    { receipt_id := receiptIdOf key, dedupe_key := key, created_utc := now,
      region := regionOf p, payload_json := p } hrec hl]
  rfl

theorem stepThread_inserting_err (now : String) (p : JVal) (key : String) (db : DBState)
    (hrec : receiptIdOf key ∈ storedReceipts db) :
    stepThread now p key (.inserting (receiptIdOf key)) db
      = (.responded (500, unhandledBody "UNIQUE constraint failed: submissions.receipt_id"), db) := by
  simp only [stepThread]
  rw [insertSubmission_err_of_mem db
    { receipt_id := receiptIdOf key, dedupe_key := key, created_utc := now,
      region := regionOf p, payload_json := p } hrec]

theorem stepThread_aggregating (now : String) (p : JVal) (key : String) (db : DBState)
    (rid : String) :
    stepThread now p key (.aggregating rid) db
      = (.responded (200, countedBody rid), updateAggregates db p) := rfl

theorem stepThread_responded (now : String) (p : JVal) (key : String) (db : DBState)
    (out : Nat × JVal) :
    stepThread now p key (.responded out) db = (.responded out, db) := rfl

theorem race_lookup_db1 (now : String) (p : JVal) (key : String) (db0 : DBState)
    (hl : lookupReceipt db0 key = none) :
    lookupReceipt (raceDB1 now p key db0) key = some (receiptIdOf key) :=
  lookupReceipt_append_self db0 (raceRow now p key) hl

theorem race_lookup_db2 (now : String) (p : JVal) (key : String) (db0 : DBState)
    (hl : lookupReceipt db0 key = none) :
    lookupReceipt (raceDB2 now p key db0) key = some (receiptIdOf key) := by
  unfold raceDB2
  rw [lookupReceipt_updateAggregates]
  exact race_lookup_db1 now p key db0 hl

theorem race_rec_db1 (now : String) (p : JVal) (key : String) (db0 : DBState) :
    receiptIdOf key ∈ storedReceipts (raceDB1 now p key db0) := by
  unfold storedReceipts raceDB1
  simp [raceRow]

theorem race_rec_db2 (now : String) (p : JVal) (key : String) (db0 : DBState) :
    receiptIdOf key ∈ storedReceipts (raceDB2 now p key db0) := by
  unfold storedReceipts raceDB2
  rw [updateAggregates_submissions]
  exact race_rec_db1 now p key db0

theorem pairOK_step_first (now : String) (p : JVal) (key : String) (db0 : DBState)
    (hl : lookupReceipt db0 key = none)
    (hrec : receiptIdOf key ∉ storedReceipts db0) (w l : Phase) (db : DBState)
    (h : pairOK now p key db0 w l db) :
    pairOK now p key db0 (stepThread now p key w db).1 l (stepThread now p key w db).2
    ∨ pairOK now p key db0 l (stepThread now p key w db).1 (stepThread now p key w db).2 := by
  rcases h with ⟨hdb, hw, hlp⟩ | ⟨hdb, hw, hlp⟩ | ⟨hdb, hw, hlp⟩ | ⟨hdb, hw, hlp⟩ <;>
    rw [hdb, hw]
  · rw [stepThread_checking_none now p key db0 hl]
    exact Or.inl (Or.inr (Or.inl ⟨rfl, rfl, Or.inl hlp⟩))
  · rw [stepThread_inserting_ok now p key db0 hrec hl]
    refine Or.inl (Or.inr (Or.inr (Or.inl ⟨rfl, rfl, ?_⟩)))
    rcases hlp with h | h
    · exact Or.inl h
    · exact Or.inr (Or.inl h)
  · rw [stepThread_aggregating]
    exact Or.inl (Or.inr (Or.inr (Or.inr ⟨rfl, rfl, hlp⟩)))
  · rw [stepThread_responded]
    exact Or.inl (Or.inr (Or.inr (Or.inr ⟨rfl, rfl, hlp⟩)))

theorem pairOK_step_second (now : String) (p : JVal) (key : String) (db0 : DBState)
    (hl : lookupReceipt db0 key = none)
    (hrec : receiptIdOf key ∉ storedReceipts db0) (w l : Phase) (db : DBState)
    (h : pairOK now p key db0 w l db) :
    pairOK now p key db0 w (stepThread now p key l db).1 (stepThread now p key l db).2
    ∨ pairOK now p key db0 (stepThread now p key l db).1 w (stepThread now p key l db).2 := by
  rcases h with ⟨hdb, hw, hlp⟩ | ⟨hdb, hw, hlp⟩ | ⟨hdb, hw, hlp⟩ | ⟨hdb, hw, hlp⟩
  · rw [hdb, hw, hlp]
    rw [stepThread_checking_none now p key db0 hl]
    exact Or.inr (Or.inr (Or.inl ⟨rfl, rfl, Or.inl rfl⟩))
  · rw [hdb, hw]
    rcases hlp with hlp | hlp <;> rw [hlp]
    · rw [stepThread_checking_none now p key db0 hl]
      exact Or.inl (Or.inr (Or.inl ⟨rfl, rfl, Or.inr rfl⟩))
    · rw [stepThread_inserting_ok now p key db0 hrec hl]
      exact Or.inr (Or.inr (Or.inr (Or.inl ⟨rfl, rfl, Or.inr (Or.inl rfl)⟩)))
  · rw [hdb, hw]
    rcases hlp with hlp | hlp | hlp | hlp <;> rw [hlp]
    · rw [stepThread_checking_some now p key _ _ (race_lookup_db1 now p key db0 hl)
        (receiptIdOf_ne_empty key)]
      exact Or.inl (Or.inr (Or.inr (Or.inl ⟨rfl, rfl, Or.inr (Or.inr (Or.inl rfl))⟩)))
    · rw [stepThread_inserting_err now p key _ (race_rec_db1 now p key db0)]
      exact Or.inl (Or.inr (Or.inr (Or.inl ⟨rfl, rfl, Or.inr (Or.inr (Or.inr rfl))⟩)))
    · rw [stepThread_responded]
      exact Or.inl (Or.inr (Or.inr (Or.inl ⟨rfl, rfl, Or.inr (Or.inr (Or.inl rfl))⟩)))
    · rw [stepThread_responded]
      exact Or.inl (Or.inr (Or.inr (Or.inl ⟨rfl, rfl, Or.inr (Or.inr (Or.inr rfl))⟩)))
  · rw [hdb, hw]
    rcases hlp with hlp | hlp | hlp | hlp <;> rw [hlp]
    · rw [stepThread_checking_some now p key _ _ (race_lookup_db2 now p key db0 hl)
        (receiptIdOf_ne_empty key)]
      exact Or.inl (Or.inr (Or.inr (Or.inr ⟨rfl, rfl, Or.inr (Or.inr (Or.inl rfl))⟩)))
    · rw [stepThread_inserting_err now p key _ (race_rec_db2 now p key db0)]
      exact Or.inl (Or.inr (Or.inr (Or.inr ⟨rfl, rfl, Or.inr (Or.inr (Or.inr rfl))⟩)))
    · rw [stepThread_responded]
      exact Or.inl (Or.inr (Or.inr (Or.inr ⟨rfl, rfl, Or.inr (Or.inr (Or.inl rfl))⟩)))
    · rw [stepThread_responded]
      exact Or.inl (Or.inr (Or.inr (Or.inr ⟨rfl, rfl, Or.inr (Or.inr (Or.inr rfl))⟩)))

theorem raceGood_runSched (now : String) (p : JVal) (key : String) (db0 : DBState)
    (hl : lookupReceipt db0 key = none)
    (hrec : receiptIdOf key ∉ storedReceipts db0)
    (sched : List Bool) (s : JointState) (h : raceGood now p key db0 s) :
    raceGood now p key db0 (runSched now p key sched s) := by
  induction sched generalizing s with
  | nil => exact h
  | cons pick rest ih =>
    simp only [runSched]
    cases pick
    · simp only [Bool.false_eq_true, if_false]
      apply ih
      rcases h with h | h
      · rcases pairOK_step_second now p key db0 hl hrec _ _ _ h with h2 | h2
        · exact Or.inl h2
        · exact Or.inr h2
      · rcases pairOK_step_first now p key db0 hl hrec _ _ _ h with h2 | h2
        · exact Or.inr h2
        · exact Or.inl h2
    · simp only [if_true]
      apply ih
      rcases h with h | h
      · rcases pairOK_step_first now p key db0 hl hrec _ _ _ h with h2 | h2
        · exact Or.inl h2
        · exact Or.inr h2
      · rcases pairOK_step_second now p key db0 hl hrec _ _ _ h with h2 | h2
        · exact Or.inr h2
        · exact Or.inl h2

/-! ### Race outcomes -/

theorem race_count_db1 (now : String) (p : JVal) (key : String) (db0 : DBState)
    (hl : lookupReceipt db0 key = none) :
    keyRowCount (raceDB1 now p key db0) key = 1 := by
  have h := keyRowCount_append_self db0 (raceRow now p key)
  have h0 := keyRowCount_zero db0 key hl
  unfold raceDB1
  rw [show (raceRow now p key).dedupe_key = key from rfl] at h
  rw [h, h0]

theorem race_count_db2 (now : String) (p : JVal) (key : String) (db0 : DBState)
    (hl : lookupReceipt db0 key = none) :
    keyRowCount (raceDB2 now p key db0) key = 1 := by
  unfold raceDB2
  rw [keyRowCount_updateAggregates]
  exact race_count_db1 now p key db0 hl

theorem race_total_db2 (now : String) (p : JVal) (key : String) (db0 : DBState) :
    aggVal (raceDB2 now p key db0) "total_submissions_counted"
      = aggVal db0 "total_submissions_counted" + 1 := by
  unfold raceDB2
  rw [aggVal_updateAggregates_total]
  rfl

theorem pairOK_db (now : String) (p : JVal) (key : String) (db0 : DBState)
    (w l : Phase) (db : DBState) (h : pairOK now p key db0 w l db) :
    db = db0 ∨ db = raceDB1 now p key db0 ∨ db = raceDB2 now p key db0 := by
  rcases h with ⟨hdb, _, _⟩ | ⟨hdb, _, _⟩ | ⟨hdb, _, _⟩ | ⟨hdb, _, _⟩
  · exact Or.inl hdb
  · exact Or.inl hdb
  · exact Or.inr (Or.inl hdb)
  · exact Or.inr (Or.inr hdb)

theorem pairOK_responded (now : String) (p : JVal) (key : String) (db0 : DBState)
    (w l : Phase) (db : DBState)
    (h : pairOK now p key db0 w l db) (ow ol : Nat × JVal)
    (hw : w = .responded ow) (hlr : l = .responded ol) :
    db = raceDB2 now p key db0
    ∧ ow = (200, countedBody (receiptIdOf key))
    ∧ (ol = (200, duplicateBody (receiptIdOf key))
       ∨ ol = (500, unhandledBody "UNIQUE constraint failed: submissions.receipt_id")) := by
  rcases h with ⟨hdb, hww, hlp⟩ | ⟨hdb, hww, hlp⟩ | ⟨hdb, hww, hlp⟩ | ⟨hdb, hww, hlp⟩
  · exact Phase.noConfusion (hww.symm.trans hw)
  · exact Phase.noConfusion (hww.symm.trans hw)
  · exact Phase.noConfusion (hww.symm.trans hw)
  · refine ⟨hdb, (Phase.responded.inj (hww.symm.trans hw)).symm, ?_⟩
    rcases hlp with hlp | hlp | hlp | hlp
    · exact Phase.noConfusion (hlp.symm.trans hlr)
    · exact Phase.noConfusion (hlp.symm.trans hlr)
    · exact Or.inl (Phase.responded.inj (hlp.symm.trans hlr)).symm
    · exact Or.inr (Phase.responded.inj (hlp.symm.trans hlr)).symm


/-! ## The claims -/

set_option maxRecDepth 100000

/-- C1: submitting one well-formed payload N times against a consistent store in which its fingerprint and derived receipt are fresh creates exactly one Submission row, increments `total_submissions_counted` exactly once, answers `counted=true` with the freshly derived receipt on the first call, and `counted=false` with that same receipt on each of the N-1 later calls. -/
theorem c1_idempotent_counting (p : JVal) (db : DBState) (now : String) (rest : List String)
    (hv : validatePayload p = [])
    (hfresh : lookupReceipt db (dedupeKeyFor p) = none)
    (hrec : receiptIdOf (dedupeKeyFor p) ∉ storedReceipts db)
    (_hcons : StateOk db) :
    (runSubmits p (now :: rest) db).1
      = (200, countedBody (receiptIdOf (dedupeKeyFor p)))
          :: List.replicate rest.length (200, duplicateBody (receiptIdOf (dedupeKeyFor p)))
    ∧ (runSubmits p (now :: rest) db).2.submissions = db.submissions ++ [subRow now p]
    ∧ aggVal (runSubmits p (now :: rest) db).2 "total_submissions_counted"
        = aggVal db "total_submissions_counted" + 1 := by
  have hstep := handleSubmit_fresh now p db hv hfresh hrec
  have hl2 : lookupReceipt
      (updateAggregates { db with submissions := db.submissions ++ [subRow now p] } p)
      (dedupeKeyFor p) = some (receiptIdOf (dedupeKeyFor p)) := by
    rw [lookupReceipt_updateAggregates]
    exact lookupReceipt_append_self db (subRow now p) hfresh
  have hdup := runSubmits_dup p rest
    (updateAggregates { db with submissions := db.submissions ++ [subRow now p] } p)
    (receiptIdOf (dedupeKeyFor p)) hv hl2 (receiptIdOf_ne_empty _)
  simp only [runSubmits, hstep, hdup]
  refine ⟨trivial, ?_, ?_⟩
  · rw [updateAggregates_submissions]
  · rw [aggVal_updateAggregates_total]
    rfl

/-- C1 witness: the scenario payload submitted twice against the empty store. -/
theorem c1_witness :
    validatePayload pGood = []
    ∧ lookupReceipt emptyDB (dedupeKeyFor pGood) = none
    ∧ (runSubmits pGood ["t1", "t2"] emptyDB).1
        = [(200, countedBody (receiptIdOf (dedupeKeyFor pGood))),
           (200, duplicateBody (receiptIdOf (dedupeKeyFor pGood)))]
    ∧ (runSubmits pGood ["t1", "t2"] emptyDB).2.submissions = [subRow "t1" pGood]
    ∧ aggVal (runSubmits pGood ["t1", "t2"] emptyDB).2 "total_submissions_counted" = 1 := by
  have h := c1_idempotent_counting pGood emptyDB "t1" ["t2"] rfl rfl
    (by simp [storedReceipts, emptyDB]) stateOk_empty
  exact ⟨rfl, rfl, h.1, h.2.1, h.2.2⟩

/-- C2: after any sequence of submit calls starting from the empty store, `both_selected + neither_selected +` (count of stored submissions selecting exactly one of approve/prefer) equals `total_submissions_counted`, the region totals sum to it, and it equals the number of distinct dedupe keys in the Submission store. -/
theorem c2_ledger_consistency (calls : List (String × Option JVal)) :
    LedgerInv (runCalls calls emptyDB) :=
  (stateOk_runCalls calls emptyDB stateOk_empty).2.2

/-- C3: a well-formed submission whose derived dedupe key already has a row (with the previously issued, hence non-empty, receipt) is answered 200 with `ok=true`, `counted=false`, that receipt and the prior-counting message, and the store — submissions, aggregates and region counters — is returned completely unchanged. -/
theorem c3_duplicate_frame (now : String) (p : JVal) (db : DBState) (r : String)
    (hv : validatePayload p = [])
    (hl : lookupReceipt db (dedupeKeyFor p) = some r) (hr : r ≠ "") :
    (handleSubmit now (some p) db).1 = (200, duplicateBody r)
    ∧ (handleSubmit now (some p) db).2 = db
    ∧ getField (duplicateBody r) "ok" = JVal.bool true
    ∧ getField (duplicateBody r) "counted" = JVal.bool false
    ∧ getField (duplicateBody r) "receipt_id" = JVal.str r
    ∧ getField (duplicateBody r) "message"
        = JVal.str "Duplicate detected (already counted)." := by
  rw [handleSubmit_dup now p db r hv hl hr]
  exact ⟨rfl, rfl, rfl, rfl, rfl, rfl⟩

/-- C3 witness: resubmitting the scenario payload against the store already holding it. -/
theorem c3_witness :
    validatePayload pGood = []
    ∧ lookupReceipt dbOne (dedupeKeyFor pGood) = some "r_5080479f"
    ∧ (handleSubmit "t9" (some pGood) dbOne).1 = (200, duplicateBody "r_5080479f")
    ∧ (handleSubmit "t9" (some pGood) dbOne).2 = dbOne := by
  have hl : lookupReceipt dbOne (dedupeKeyFor pGood) = some "r_5080479f" := by rfl
  have h := c3_duplicate_frame "t9" pGood dbOne "r_5080479f" rfl hl (by decide)
  exact ⟨rfl, hl, h.1, h.2.1⟩

/-- C4: each validator returns the empty list iff `schema_version`, `created_utc`, `voter_id`, `context.region` and `context.country_or_territory` are all present (truthy, the source's notion of present) and `context` is an object; and every missing required field contributes its own message to the returned list in a single pass. -/
theorem c4_validator (p : JVal) :
    ((validatePayload p = []) ↔ wellFormed p = true)
    ∧ ((validate p = []) ↔ wellFormed p = true)
    ∧ ((truthy p && isObjType p) = true →
        ((truthy (getField p "schema_version") = false →
            "Missing schema_version" ∈ validatePayload p)
          ∧ (truthy (getField p "created_utc") = false →
              "Missing created_utc" ∈ validatePayload p)
          ∧ (truthy (getField p "voter_id") = false →
              "Missing voter_id" ∈ validatePayload p)
          ∧ ((truthy (getField p "context") && isObjType (getField p "context")) = false →
              "Missing context object" ∈ validatePayload p)
          ∧ (truthy (getField (getField p "context") "region") = false →
              "Missing context.region" ∈ validatePayload p)
          ∧ (truthy (getField (getField p "context") "country_or_territory") = false →
              "Missing context.country_or_territory" ∈ validatePayload p)))
    ∧ ((truthy (getField p "schema_version") = false →
          "Missing schema_version" ∈ validate p)
        ∧ (truthy (getField p "created_utc") = false →
            "Missing created_utc" ∈ validate p)
        ∧ (truthy (getField p "voter_id") = false →
            "Missing voter_id" ∈ validate p)
        ∧ (truthy (getField (getField p "context") "region") = false →
            "Missing context.region" ∈ validate p)
        ∧ (truthy (getField (getField p "context") "country_or_territory") = false →
            "Missing context.country_or_territory" ∈ validate p)) :=
  ⟨validatePayload_eq_nil_iff p, validate_eq_nil_iff p,
   fun hobj => validatePayload_collects p hobj, validate_collects p⟩

/-- C4 witness: a payload missing `schema_version` and `context.region` receives both messages at once. -/
theorem c4_witness :
    validatePayload pMissing = ["Missing schema_version", "Missing context.region"]
    ∧ validate pMissing = ["Missing schema_version", "Missing context.region"]
    ∧ "Missing schema_version" ∈ validatePayload pMissing
    ∧ "Missing context.region" ∈ validatePayload pMissing
    ∧ wellFormed pMissing = false := by
  refine ⟨rfl, rfl, ?_, ?_, rfl⟩
  · exact ((c4_validator pMissing).2.2.1 rfl).1 rfl
  · exact ((c4_validator pMissing).2.2.1 rfl).2.2.2.2.1 rfl

/-- C5: an unparseable body is answered `{ok: false, error: BAD_JSON}` and an invalid payload `{ok: false, error: VALIDATION_FAILED, details: <the full error list>}`; in both cases the store is returned unchanged — rejection happens before any write. -/
theorem c5_rejection (now : String) (db : DBState) (p : JVal) :
    handleSubmit now none db = ((400, badJsonBody), db)
    ∧ (validatePayload p ≠ [] →
        handleSubmit now (some p) db
          = ((422, validationFailedBody (validatePayload p)), db))
    ∧ getField badJsonBody "ok" = JVal.bool false
    ∧ getField badJsonBody "error" = JVal.str "BAD_JSON"
    ∧ (∀ ds : List String,
        getField (validationFailedBody ds) "ok" = JVal.bool false
        ∧ getField (validationFailedBody ds) "error" = JVal.str "VALIDATION_FAILED"
        ∧ getField (validationFailedBody ds) "details" = JVal.arr (ds.map JVal.str)) :=
  ⟨handleSubmit_none now db, fun h => handleSubmit_invalid now p db h, rfl, rfl,
   fun _ => ⟨rfl, rfl, rfl⟩⟩

/-- C5 witness: the bad-JSON and validation-failure responses on the empty store. -/
theorem c5_witness :
    validatePayload pMissing ≠ []
    ∧ handleSubmit "t" none emptyDB = ((400, badJsonBody), emptyDB)
    ∧ handleSubmit "t" (some pMissing) emptyDB
        = ((422, validationFailedBody (validatePayload pMissing)), emptyDB) := by
  have h := c5_rejection "t" emptyDB pMissing
  exact ⟨by decide, h.1, h.2.1 (by decide)⟩

/-- C6: the dedupe fingerprint is a function of `(voter_id, schema_version, windowId)` alone, two submit runs of the same payload at different wall-clock times against different fresh stores return the identical receipt id, and that receipt is the literal tag `r_` followed by the truncated second hash of the dedupe key. -/
theorem c6_determinism (p : JVal) (dbA dbB : DBState) (nowA nowB : String)
    (hv : validatePayload p = [])
    (hA : lookupReceipt dbA (dedupeKeyFor p) = none)
    (hAr : receiptIdOf (dedupeKeyFor p) ∉ storedReceipts dbA)
    (hB : lookupReceipt dbB (dedupeKeyFor p) = none)
    (hBr : receiptIdOf (dedupeKeyFor p) ∉ storedReceipts dbB) :
    dedupeKeyFor p = dedupeKeyOf (jsToString (getField p "voter_id"))
        (jsToString (getField p "schema_version")) windowId
    ∧ getField (handleSubmit nowA (some p) dbA).1.2 "receipt_id"
        = JVal.str (receiptIdOf (dedupeKeyFor p))
    ∧ getField (handleSubmit nowB (some p) dbB).1.2 "receipt_id"
        = JVal.str (receiptIdOf (dedupeKeyFor p))
    ∧ receiptIdOf (dedupeKeyFor p) = "r_" ++ (sha256 (dedupeKeyFor p)).take 8 := by
  refine ⟨rfl, ?_, ?_, rfl⟩
  · rw [handleSubmit_fresh nowA p dbA hv hA hAr]
    rfl
  · rw [handleSubmit_fresh nowB p dbB hv hB hBr]
    rfl

/-- C6 witness: two runs of the scenario payload at different times yield the same receipt. -/
theorem c6_witness :
    validatePayload pGood = []
    ∧ getField (handleSubmit "t1" (some pGood) emptyDB).1.2 "receipt_id"
        = JVal.str (receiptIdOf (dedupeKeyFor pGood))
    ∧ getField (handleSubmit "t2" (some pGood) emptyDB).1.2 "receipt_id"
        = JVal.str (receiptIdOf (dedupeKeyFor pGood)) := by
  have h := c6_determinism pGood emptyDB emptyDB "t1" "t2" rfl rfl
    (by simp [storedReceipts, emptyDB]) rfl (by simp [storedReceipts, emptyDB])
  exact ⟨rfl, h.2.1, h.2.2.1⟩

/-- C7: in the report, `approval_rate_percent`, `prefer_open_rate_percent` and every region's `approve_rate_percent` are `null` exactly when the corresponding total is 0 and otherwise equal `100*count/total` rounded to one decimal place; in particular with total=3 and approve=1 the approval rate is 33.3. -/
theorem c7_rates (now : String) (db : DBState) :
    getField (getField (handleResults now db).2 "ballot") "approval_rate_percent"
      = rateField (aggVal db "approve_interim_yes") (aggVal db "total_submissions_counted")
    ∧ getField (getField (handleResults now db).2 "ballot") "prefer_open_rate_percent"
      = rateField (aggVal db "prefer_open_contest_yes") (aggVal db "total_submissions_counted")
    ∧ getField (handleResults now db).2 "regional_balance"
      = JVal.arr (db.region_counts.map (fun r => JVal.obj
          [("region", JVal.str r.region),
           ("submissions_counted", JVal.num (r.total : ℚ)),
           ("approve_rate_percent", rateField r.approve_yes r.total)]))
    ∧ (∀ c t : Nat, (rateField c t = JVal.null ↔ t = 0)
        ∧ (t ≠ 0 → rateField c t = JVal.num (round1 (100 * (c : ℚ) / (t : ℚ)))))
    ∧ getField (getField (handleResults now dbThree).2 "ballot") "approval_rate_percent"
        = JVal.num 33.3 := by
  refine ⟨rfl, rfl, rfl, ?_, ?_⟩
  · intro c t
    constructor
    · by_cases ht : t = 0
      · simp [rateField, ht]
      · simp [rateField, ht]
    · intro ht
      have harith : ((c : ℚ) / (t : ℚ)) * 100 = 100 * (c : ℚ) / (t : ℚ) := by ring
      simp [rateField, ht, harith]
  · show rateField 1 3 = JVal.num 33.3
    rw [show (33.3 : ℚ) = 333 / 10 by norm_num]
    norm_num [rateField, round1]

/-- C7 witness: the rate fields at total=0 and at total=3, approve=1. -/
theorem c7_witness :
    rateField 1 0 = JVal.null
    ∧ rateField 1 3 = JVal.num (round1 (100 * (1 : ℚ) / (3 : ℚ)))
    ∧ getField (getField (handleResults "t" dbThree).2 "ballot") "approval_rate_percent"
        = JVal.num 33.3 := by
  have h := c7_rates "t" emptyDB
  exact ⟨((h.2.2.2.1 1 0).1).mpr rfl, (h.2.2.2.1 1 3).2 (by decide), h.2.2.2.2⟩

/-- C8 (amended): in every interleaving of two submit requests carrying one fresh fingerprint, at most one row with that key ever exists — the storage UNIQUE constraint rejects the second insert — and once both have responded, exactly one responded `counted=true`, the store holds exactly one row for the key with the total incremented exactly once, and the other request responded either `counted=false` with the same receipt (its duplicate check ran after the winner's insert) or, when it lost the application-level check-then-act race, the UNHANDLED 500 from the storage constraint violation rather than the duplicate response. -/
theorem c8_amended (now : String) (p : JVal) (key : String) (db0 : DBState)
    (hl : lookupReceipt db0 key = none)
    (hrec : receiptIdOf key ∉ storedReceipts db0)
    (sched : List Bool) :
    keyRowCount (runSched now p key sched ⟨db0, .checking, .checking⟩).dbase key ≤ 1
    ∧ (∀ oa ob,
        (runSched now p key sched ⟨db0, .checking, .checking⟩).thA = .responded oa →
        (runSched now p key sched ⟨db0, .checking, .checking⟩).thB = .responded ob →
        ((oa = (200, countedBody (receiptIdOf key))
            ∧ (ob = (200, duplicateBody (receiptIdOf key))
               ∨ ob = (500, unhandledBody "UNIQUE constraint failed: submissions.receipt_id")))
          ∨ (ob = (200, countedBody (receiptIdOf key))
              ∧ (oa = (200, duplicateBody (receiptIdOf key))
                 ∨ oa = (500, unhandledBody "UNIQUE constraint failed: submissions.receipt_id"))))
        ∧ keyRowCount (runSched now p key sched ⟨db0, .checking, .checking⟩).dbase key = 1
        ∧ aggVal (runSched now p key sched ⟨db0, .checking, .checking⟩).dbase
            "total_submissions_counted"
          = aggVal db0 "total_submissions_counted" + 1) := by
  have hg := raceGood_runSched now p key db0 hl hrec sched ⟨db0, .checking, .checking⟩
    (Or.inl (Or.inl ⟨rfl, rfl, rfl⟩))
  constructor
  · have hdb : (runSched now p key sched ⟨db0, .checking, .checking⟩).dbase = db0
        ∨ (runSched now p key sched ⟨db0, .checking, .checking⟩).dbase = raceDB1 now p key db0
        ∨ (runSched now p key sched ⟨db0, .checking, .checking⟩).dbase
            = raceDB2 now p key db0 := by
      rcases hg with h | h
      · exact pairOK_db now p key db0 _ _ _ h
      · exact pairOK_db now p key db0 _ _ _ h
    rcases hdb with h | h | h <;> rw [h]
    · rw [keyRowCount_zero db0 key hl]
      decide
    · rw [race_count_db1 now p key db0 hl]
    · rw [race_count_db2 now p key db0 hl]
  · intro oa ob hA hB
    rcases hg with h | h
    · have hres := pairOK_responded now p key db0 _ _ _ h oa ob hA hB
      refine ⟨Or.inl hres.2, ?_, ?_⟩ <;> rw [hres.1]
      · exact race_count_db2 now p key db0 hl
      · exact race_total_db2 now p key db0
    · have hres := pairOK_responded now p key db0 _ _ _ h ob oa hB hA
      refine ⟨Or.inr hres.2, ?_, ?_⟩ <;> rw [hres.1]
      · exact race_count_db2 now p key db0 hl
      · exact race_total_db2 now p key db0

/-- C8 witness: a concrete full schedule of the race on the empty store. -/
theorem c8_witness :
    lookupReceipt emptyDB (dedupeKeyFor pGood) = none
    ∧ keyRowCount (runSched "t" pGood (dedupeKeyFor pGood) [true, false, true, true, false]
        ⟨emptyDB, .checking, .checking⟩).dbase (dedupeKeyFor pGood) = 1
    ∧ aggVal (runSched "t" pGood (dedupeKeyFor pGood) [true, false, true, true, false]
        ⟨emptyDB, .checking, .checking⟩).dbase "total_submissions_counted" = 1 := by
  have h := (c8_amended "t" pGood (dedupeKeyFor pGood) emptyDB rfl
      (by simp [storedReceipts, emptyDB]) [true, false, true, true, false]).2
    (200, countedBody (receiptIdOf (dedupeKeyFor pGood)))
    (500, unhandledBody "UNIQUE constraint failed: submissions.receipt_id")
    (by rfl) (by rfl)
  exact ⟨rfl, h.2.1, h.2.2⟩

/-- C8 counterexample: a schedule in which both requests pass the duplicate check before the winner's insert leaves the loser responding UNHANDLED 500, not `counted=false` with the existing receipt as the claim states. -/
theorem c8_counterexample :
    (runSched "t" pGood (dedupeKeyFor pGood) [true, false, true, true, false]
        ⟨emptyDB, .checking, .checking⟩).thB
      = .responded (500, unhandledBody "UNIQUE constraint failed: submissions.receipt_id")
    ∧ (runSched "t" pGood (dedupeKeyFor pGood) [true, false, true, true, false]
        ⟨emptyDB, .checking, .checking⟩).thB
      ≠ .responded (200, duplicateBody (receiptIdOf (dedupeKeyFor pGood)))
    ∧ (runSched "t" pGood (dedupeKeyFor pGood) [true, false, true, true, false]
        ⟨emptyDB, .checking, .checking⟩).thA
      = .responded (200, countedBody (receiptIdOf (dedupeKeyFor pGood))) := by
  have hB : (runSched "t" pGood (dedupeKeyFor pGood) [true, false, true, true, false]
      ⟨emptyDB, .checking, .checking⟩).thB
      = .responded (500, unhandledBody "UNIQUE constraint failed: submissions.receipt_id") := by
    rfl
  refine ⟨hB, ?_, by rfl⟩
  rw [hB]
  intro hcontra
  injection hcontra with hpair
  exact absurd (congrArg Prod.fst hpair) (by decide)

/-- C9 (amended): the two transport variants agree on payloads that are objects whose `context` passes the typeof-object check — there the validators return the same error list, the aggregate updaters are extensionally equal, and the submit handlers produce the same response and final state — except that on a storage constraint violation src/worker.js responds UNHANDLED 500 while the unnamed variant propagates the exception and produces no JSON response. -/
theorem c9_amended (now : String) (body : Option JVal) (db : DBState)
    (h : ∀ p, body = some p → objShaped p = true) :
    (∀ q, objShaped q = true → validatePayload q = validate q)
    ∧ (∀ (d : DBState) (q : JVal), updateAggregatesU d q = updateAggregates d q)
    ∧ ((∃ e, handleSubmitU now body db = none
          ∧ handleSubmit now body db = ((500, unhandledBody e), db))
        ∨ handleSubmitU now body db = some (handleSubmit now body db)) :=
  ⟨fun q hq => validators_agree q hq, fun d q => updateAggregatesU_eq d q,
   variants_agree_submit now body db h⟩

/-- C9 witness: the variants agree on the scenario payload over the empty store. -/
theorem c9_witness :
    objShaped pGood = true
    ∧ validatePayload pGood = validate pGood
    ∧ ((∃ e, handleSubmitU "t" (some pGood) emptyDB = none
          ∧ handleSubmit "t" (some pGood) emptyDB = ((500, unhandledBody e), emptyDB))
        ∨ handleSubmitU "t" (some pGood) emptyDB
            = some (handleSubmit "t" (some pGood) emptyDB)) := by
  have h := c9_amended "t" (some pGood) emptyDB (by intro q hq; cases hq; rfl)
  exact ⟨rfl, h.1 pGood rfl, h.2.2⟩

/-- C9 counterexample: on the empty-object payload the worker validator returns six messages (including `Missing context object`) while the unnamed variant returns five, so the validators are not the same function. -/
theorem c9_counterexample :
    validatePayload pEmpty ≠ validate pEmpty
    ∧ validatePayload pEmpty
        = ["Missing schema_version", "Missing created_utc", "Missing voter_id",
           "Missing context object", "Missing context.region",
           "Missing context.country_or_territory"]
    ∧ validate pEmpty
        = ["Missing schema_version", "Missing created_utc", "Missing voter_id",
           "Missing context.region", "Missing context.country_or_territory"] :=
  ⟨by decide, rfl, rfl⟩

/-- C10: the dedupe fingerprint depends only on `voter_id` and `schema_version` (plus the constant window id), so a second well-formed submission sharing those two fields — whatever its ballot, region or timestamp — is answered `counted=false` with the first submission's receipt and leaves the store, including the stored first payload and every counter, unchanged. -/
theorem c10_fingerprint_scope (p1 p2 : JVal) (db : DBState) (now1 now2 : String)
    (hv1 : validatePayload p1 = []) (hv2 : validatePayload p2 = [])
    (hvid : getField p1 "voter_id" = getField p2 "voter_id")
    (hsv : getField p1 "schema_version" = getField p2 "schema_version")
    (hfresh : lookupReceipt db (dedupeKeyFor p1) = none)
    (hrec : receiptIdOf (dedupeKeyFor p1) ∉ storedReceipts db) :
    dedupeKeyFor p2 = dedupeKeyFor p1
    ∧ handleSubmit now2 (some p2) (handleSubmit now1 (some p1) db).2
        = ((200, duplicateBody (receiptIdOf (dedupeKeyFor p1))),
           (handleSubmit now1 (some p1) db).2)
    ∧ (handleSubmit now1 (some p1) db).2.submissions = db.submissions ++ [subRow now1 p1] := by
  have hkey : dedupeKeyFor p2 = dedupeKeyFor p1 := by
    unfold dedupeKeyFor
    rw [hvid, hsv]
  have hstep := handleSubmit_fresh now1 p1 db hv1 hfresh hrec
  refine ⟨hkey, ?_, ?_⟩
  · rw [hstep]
    apply handleSubmit_dup now2 p2 _ _ hv2 _ (receiptIdOf_ne_empty _)
    rw [hkey, lookupReceipt_updateAggregates]
    exact lookupReceipt_append_self db (subRow now1 p1) hfresh
  · rw [hstep, updateAggregates_submissions]

/-- C10 witness: a same-voter payload with different ballot choices and region is treated as a duplicate of the first. -/
theorem c10_witness :
    getField pGood "voter_id" = getField pGood2 "voter_id"
    ∧ getField pGood "schema_version" = getField pGood2 "schema_version"
    ∧ regionOf pGood ≠ regionOf pGood2
    ∧ approveOf pGood ≠ approveOf pGood2
    ∧ dedupeKeyFor pGood2 = dedupeKeyFor pGood
    ∧ handleSubmit "t2" (some pGood2) (handleSubmit "t1" (some pGood) emptyDB).2
        = ((200, duplicateBody (receiptIdOf (dedupeKeyFor pGood))),
           (handleSubmit "t1" (some pGood) emptyDB).2) := by
  have h := c10_fingerprint_scope pGood pGood2 emptyDB "t1" "t2" rfl rfl rfl rfl rfl
    (by simp [storedReceipts, emptyDB])
  exact ⟨rfl, rfl, by decide, by decide, h.1, h.2.1⟩
